import Mathlib

/-! # RFID alert service: a shallow embedding and its verified properties

The development embeds the Go sources of the alert service

* `app/routes/handlers/handlers.go` (the HTTP handler of inbound alerts),
* `app/alert/lib.go` (`ProcessAlert`, `NotifyChannel`, `PostNotification`),
* `main.go` (the sensing dispatcher and its three relay handlers),

as pure Lean functions with explicit state passing.  Everything the Go code
obtains from outside the repository sources (the `encoding/json` codec, the
`net/http` client, the clock, the schema validator, the declarations of the
`models`, `web` and `schemas` packages) is a field of `Env` or a plain
argument, so that every theorem holds for every behaviour of those parts.
Calls to the metrics library have no influence on control flow or on any
value studied here and are left out; log lines are kept.

The gateway liveness registry (heartbeat registration and the watchdog) lives
in files that are not among the sources; it is written from the specification
in a section of its own.
-/

namespace AlertService

/-! ## Values shared by all packages -/

/-- Go `[]byte`: a sequence of byte values. -/
abbrev Bytes := List Nat

/-- A reading of the wall clock (`time.Time`), as a count of ticks. -/
abbrev Time := Int

/-- A decoded JSON document, as `encoding/json` hands it out into
`interface{}`.  Numbers keep their literal, their numeric value is never
inspected by the service. -/
inductive Json where
  | null
  | bool (b : Bool)
  | num (literal : String)
  | str (s : String)
  | arr (items : List Json)
  | obj (members : List (String × Json))

/-- Member lookup as a Go map built by the decoder answers it: when a key is
repeated in the document the last occurrence wins; `none` is Go's nil
interface for an absent key. -/
def Json.member (key : String) : List (String × Json) → Option Json
  | [] => none
  | (k, v) :: rest =>
    match Json.member key rest with
    | some later => some later
    | none => if k = key then some v else none

/-- Go `error` values.  `errValidation` is the sentinel `web.ErrValidation`;
`wrap cause msg` is `errors.Wrap(cause, msg)` / `errors.Wrapf` of
`github.com/pkg/errors` with a fixed message, `wrapError cause e` is
`errors.Wrap(cause, e.Error())`. -/
inductive GoError where
  | new (msg : String)
  | errValidation
  | wrap (cause : GoError) (msg : String)
  | wrapError (cause : GoError) (message : GoError)
  deriving DecidableEq, Repr

/-- Log levels of logrus used by the service. -/
inductive Level where
  | debug
  | info
  | warn
  | error
  | fatal
  deriving DecidableEq, Repr

/-- One emitted log line: its level and its message (the format string of
`Infof` / `Errorf` calls, the fixed text otherwise). -/
structure LogEntry where
  level : Level
  msg : String
  deriving DecidableEq, Repr

/-! ## Package `models` -/

/-- Modelled from the spec: `models.Alert`, the type of `AlertMessage.Value`,
is declared outside the available sources.  The sources read and write its
`AlertNumber` field only; all other fields travel in `other`. -/
structure Alert where
  AlertNumber : Int
  other : Json

/-- Modelled from the spec: `models.AlertMessage` is declared outside the
available sources.  The sources use its `Datetime` (the notification
timestamp) and its `Value`; all other fields travel in `other`. -/
structure AlertMessage where
  Datetime : Time
  Value : Alert
  other : Json

/-! ## Package `handlers`: defaulting of inbound alerts -/

/-- Go `populateAlertNotificationPayload` (handlers.go).  The pointer
argument is updated in place; here the updated message is returned.  `now` is
the value of `time.Now()` at the call. -/
def populateAlertNotificationPayload (now : Time) (alertPayload : AlertMessage) :
    AlertMessage :=
  -- use system time
  let alertPayload := { alertPayload with Datetime := now }
  -- override 0
  if alertPayload.Value.AlertNumber = 0 then
    { alertPayload with Value := { alertPayload.Value with AlertNumber := 686 } }
  else
    alertPayload

/-! ## The world outside the sources -/

/-- The `Value` of a sensing item: anything the SDK decoded, or a value of a
Go type that `encoding/json` refuses to encode (a channel, a function, a
complex number, a non-finite float). -/
inductive ItemValue where
  | json (j : Json)
  | unsupported (goType : String)

/-- A `core.ProviderItem` of the sensing SDK, as far as the service looks at
it: its context type and its `Value interface{}`. -/
structure ProviderItem where
  ContextType : String
  Value : ItemValue

/-- The values that reach an `interface{}` parameter or field in the
sources. -/
inductive Dyn where
  | text (s : Bytes)
  | alert (a : Alert)
  | alertMessage (m : AlertMessage)
  | item (i : ProviderItem)
  | json (j : Json)

/-- An outbound `*http.Request`. -/
structure Request where
  method : String
  url : String
  body : Bytes
  header : List (String × String)

/-- Go `request.Header.Set`: the value replaces what the header held under
that key (the key is kept as written; Go stores it in canonical case). -/
def Request.setHeader (r : Request) (key value : String) : Request :=
  { r with header := (key, value) :: r.header.filter (fun kv => kv.1 != key) }

/-- The `Body` of an `*http.Response`: what `ioutil.ReadAll` yields on it and
what `Close` answers. -/
structure ResponseBody where
  readAll : Except GoError Bytes
  close : Option GoError

/-- An `*http.Response` as returned by `client.Do` with a nil error.  The
`net/http` client guarantees a non-nil `Body` then, so the test
`response.Body != nil` of the sources always succeeds. -/
structure Response where
  StatusCode : Int
  Body : ResponseBody

/-- Package `alert`: the `Notification` put on the notification channel (its
fields as the composite literal in `ProcessAlert` names them). -/
structure Notification where
  NotificationMessage : String
  NotificationType : String
  Data : Dyn
  GatewayID : String

/-- Everything the sources call but do not define.

* `unmarshal` is the syntax part of `json.Unmarshal` (bytes to document),
  `decodeAlertMessage` its decoding of a document into `models.AlertMessage`;
* `marshal` / `marshalIndent` are `json.Marshal` / `json.MarshalIndent`
  (prefix and indent as given);
* `parseURL` is the URL check of `http.NewRequest` (the method is always the
  valid `"POST"`), `none` meaning success;
* `clientDo k r` is the outcome of the `client.Do(r)` call made after `k`
  earlier calls: a transport error (timeout included) or a response;
* `generatePayload` is the method `Notification.GeneratePayload`, declared in
  a file of package `alert` that is not among the sources: it may fail, and
  through its receiver it may rewrite the notification;
* `validateSchemaRequest` and `buildErrorsString` are
  `schemas.ValidateSchemaRequest` (an error, or the list of schema violations,
  empty when the document is valid) and `schemas.BuildErrorsString`;
  `alertMessageSchema` is the constant `schemas.AlertMessageSchema`;
* `maxSliceLen` and `maxChanSize` are the limits of the Go runtime on this
  platform: `make([]byte, n)` panics for a negative `n` and for `n` beyond
  `maxSliceLen`, `make(chan Notification, n)` for a negative `n` and for `n`
  beyond `maxChanSize` (an allocation within the limits that the operating
  system refuses ends the process and is outside the model). -/
structure Env where
  unmarshal : Bytes → Except GoError Json
  decodeAlertMessage : Json → Except GoError AlertMessage
  marshal : Dyn → Except GoError Bytes
  marshalIndent : Dyn → String → String → Except GoError Bytes
  parseURL : String → Option GoError
  clientDo : Nat → Request → Except GoError Response
  generatePayload : Notification → Except GoError Notification
  validateSchemaRequest : Bytes → String → Except GoError (List String)
  buildErrorsString : List String → Json
  alertMessageSchema : String
  maxSliceLen : Nat
  maxChanSize : Nat

/-- The observable effects accumulated so far: the log lines and the requests
handed to `client.Do`, oldest first. -/
structure World where
  log : List LogEntry
  posts : List Request
  listeners : List String

/-- Emit one log line. -/
def World.logLine (w : World) (level : Level) (msg : String) : World :=
  { w with log := w.log ++ [⟨level, msg⟩] }

/-- The fields of `config.AppConfig` that the sources read. -/
structure Config where
  CloudConnectorURL : String
  CloudConnectorEndpoint : String
  NotificationChanSize : Int
  SendHeartbeatTo : String
  SendEventTo : String
  SendAlertTo : String

/-- The result of a Go call that either returns or panics. -/
inductive Outcome (α : Type) where
  | returned (a : α)
  | panicked

/-- A Go channel of notifications, between two steps of the program: its
capacity, the buffered values oldest first, the values of the goroutines
blocked in a send, in the order in which they blocked, and the values of the
goroutines that were started to send on the channel and have not reached their
send yet (the scheduler may run these in any order, at any later time). -/
structure Chan where
  cap : Nat
  buf : List Notification
  sendq : List Notification
  spawned : List Notification

/-- Go `make(chan Notification, size)` for a size that `make` accepts. -/
def Chan.make (size : Nat) : Chan := ⟨size, [], [], []⟩

/-- Go `int` on the 64-bit platforms the service is built for: the result of
an arithmetic operation wraps around into the range from `-2^63` to
`2^63 - 1`. -/
def wrapInt64 (x : Int) : Int :=
  (x + 9223372036854775808) % 18446744073709551616 - 9223372036854775808

/-- Go `len(ch)`: the number of buffered values. -/
def Chan.len (ch : Chan) : Nat := ch.buf.length

/-- A send `ch <- n` made by a goroutine of its own: the value is buffered
when there is room, otherwise the goroutine blocks at the end of the send
queue. -/
def Chan.send (ch : Chan) (n : Notification) : Chan :=
  if ch.buf.length < ch.cap then { ch with buf := ch.buf ++ [n] }
  else { ch with sendq := ch.sendq ++ [n] }

/-- Go `go func() { ch <- n }()`: a goroutine is started whose only action is
the send of `n`; nothing is sent yet. -/
def Chan.spawnSend (ch : Chan) (n : Notification) : Chan :=
  { ch with spawned := ch.spawned ++ [n] }

/-- The scheduler lets the started goroutine number `i` (counted from 0 among
those that have not sent yet) perform its send; nothing happens when there is
no such goroutine. -/
def Chan.runSpawned (ch : Chan) (i : Nat) : Chan :=
  match ch.spawned.get? i with
  | none => ch
  | some n => Chan.send { ch with spawned := ch.spawned.eraseIdx i } n

/-- A receive `<-ch` as the Go runtime performs it: the oldest buffered value
is taken and the first blocked sender, if any, moves its value into the freed
slot; with an empty buffer the value of the first blocked sender is handed
over directly; `none` when the receiver would block. -/
def Chan.recv (ch : Chan) : Option (Notification × Chan) :=
  match ch.buf, ch.sendq with
  | n :: rest, s :: waiting => some (n, { ch with buf := rest ++ [s], sendq := waiting })
  | n :: rest, [] => some (n, { ch with buf := rest })
  | [], s :: waiting => some (s, { ch with sendq := waiting })
  | [], [] => none

/-- Go `http.NewRequest(method, url, bytes.NewBuffer(body))`. -/
def NewRequest (env : Env) (method url : String) (body : Bytes) : Except GoError Request :=
  match env.parseURL url with
  | some err => .error err
  | none => .ok ⟨method, url, body, []⟩

/-- Go `client.Do(request)`: the request is recorded as an attempt and the
environment decides its outcome. -/
def clientDo (env : Env) (request : Request) (w : World) : Except GoError Response × World :=
  (env.clientDo w.posts.length request, { w with posts := w.posts ++ [request] })

/-! ## Package `alert`: posting a notification -/

/-- Constant `jsonApplication` (lib.go and main.go). -/
def jsonApplication : String := "application/json;charset=utf-8"

/-- Go `alert.PostNotification` (lib.go).  The result pair is the returned
`([]byte, error)`, `none` standing for nil. -/
def PostNotification (env : Env) (data : Dyn) (toURL : String) (w : World) :
    (Option Bytes × Option GoError) × World :=
  match env.marshalIndent data "" "    " with
  | .error _ => ((none, some (.new "Payload Marshalling failed  %v")), w)
  | .ok mData =>
    let w := w.logLine .debug "Payload to cloud-connector after marshalling:\n%s"
    match NewRequest env "POST" toURL mData with
    | .error reqErr => ((none, some reqErr), w)
    | .ok request =>
      let request := request.setHeader "content-type" jsonApplication
      match clientDo env request w with
      | (.error respErr, w) => ((none, some respErr), w)
      | (.ok response, w) =>
        if response.StatusCode ≠ 200 then
          ((none, some (.new "PostNotification failed with following response code %d")), w)
        else
          match response.Body.readAll with
          | .error err => ((none, some (.wrap err "unable to ReadALL response.Body")), w)
          | .ok responseData =>
            let w := w.logLine .debug "Notification posted"
            -- deferred: response.Body.Close()
            let w := match response.Body.close with
              | some _ => w.logLine .info "response.Body.Close()"
              | none => w
            ((some responseData, none), w)

/-! ## Package `alert`: building and delivering notifications -/

/-- Constant `AlertType` (lib.go). -/
def AlertType : String := "Alert"

/-- Go `json.Unmarshal(bytes, &data)` for a nil `data map[string]interface{}`:
an object fills the map, the document `null` leaves it nil (`none`) without
error, any other document is a type error. -/
def unmarshalMap (env : Env) (bytes : Bytes) :
    Except GoError (Option (List (String × Json))) :=
  match env.unmarshal bytes with
  | .error err => .error err
  | .ok (.obj members) => .ok (some members)
  | .ok .null => .ok none
  | .ok _ => .error (.new "json: cannot unmarshal into Go value of type map[string]interface")

/-- Go `json.Unmarshal(bytes, &alertEvent)` for a zero
`alertEvent models.AlertMessage`. -/
def unmarshalAlertMessage (env : Env) (bytes : Bytes) : Except GoError AlertMessage :=
  match env.unmarshal bytes with
  | .error err => .error err
  | .ok doc => env.decodeAlertMessage doc

/-- Go `data[key]` on a possibly nil map. -/
def mapIndex (data : Option (List (String × Json))) (key : String) : Option Json :=
  match data with
  | none => none
  | some members => Json.member key members

/-- Go `alert.ProcessAlert` (lib.go).  Returns the error (`none` for nil),
the notification channel and the world.  The goroutine started at the end
only performs one send; `ProcessAlert` returns without waiting for it, so the
goroutine is recorded with the channel and the send itself happens when
`Chan.runSpawned` runs it. -/
def ProcessAlert (env : Env) (jsonBytes : Bytes) (notificationChan : Chan) (w : World) :
    Option GoError × Chan × World :=
  let w := w.logLine .info "Received alert:\n%s"
  match unmarshalMap env jsonBytes with
  | .error err => (some err, notificationChan, w.logLine .error "error parsing Alert %s")
  | .ok data =>
    match mapIndex data "value" with
    | some (.obj value) =>
      let (gatewayID, w) :=
        match Json.member "gateway_id" value with
        | some (.str s) => (s, w)
        | _ =>
          -- ASN Alert will not contain gateway id
          ("", w.logLine .warn "This may not be an issue, but received Alert without gateway id.")
      match unmarshalAlertMessage env jsonBytes with
      | .error err => (some err, notificationChan, w.logLine .error "error parsing Alert %s")
      | .ok alertEvent =>
        let notificationChan := notificationChan.spawnSend
          { NotificationMessage := "Process Alert"
            NotificationType := AlertType
            Data := .alert alertEvent.Value
            GatewayID := gatewayID }
        (none, notificationChan, w.logLine .info "Processed alert")
    | _ => (some (.new "Type assertion failed"), notificationChan, w)

/-- The body of the `for ... range` loop of `alert.NotifyChannel` (lib.go) for
one received `notification`; `notificationChan` is the channel after that
receive.  The subtraction `notificationChanSize-10` is made on Go `int`s and
wraps around. -/
def notifyOne (env : Env) (cfg : Config) (notification : Notification)
    (notificationChan : Chan) (w : World) : World :=
  let cloudConnector := cfg.CloudConnectorURL ++ cfg.CloudConnectorEndpoint
  let notificationChanSize := cfg.NotificationChanSize
  let w :=
    if (notificationChan.len : Int) ≥ wrapInt64 (notificationChanSize - 10) then
      w.logLine .warn "Channel size getting full!"
    else w
  match env.generatePayload notification with
  | .error _ => w.logLine .error "Problem generating payload for %s, %s"
  | .ok notification =>
    match PostNotification env notification.Data cloudConnector w with
    | ((_, some _), w) => w.logLine .error "Problem sending notification for %s, %s"
    | ((_, none), w) => w

/-- The loop of `NotifyChannel`, run for at most `fuel` receives. -/
def notifyLoop (env : Env) (cfg : Config) : Nat → Chan → World → Chan × World
  | 0, ch, w => (ch, w)
  | fuel + 1, ch, w =>
    match ch.recv with
    | none => (ch, w)
    | some (notification, ch) => notifyLoop env cfg fuel ch (notifyOne env cfg notification ch w)

/-- Go `alert.NotifyChannel` (lib.go), run on the current content of the
channel until a receive would block (the channel is never closed, so the Go
loop waits there).  One receive per queued value is all the loop can do. -/
def NotifyChannel (env : Env) (cfg : Config) (notificationChan : Chan) (w : World) :
    Chan × World :=
  notifyLoop env cfg (notificationChan.buf.length + notificationChan.sendq.length)
    notificationChan w

/-! ## Package `main`: the sensing dispatcher -/

/-- Constants `heartbeatUrn`, `eventsUrn`, `alertsUrn` (main.go). -/
def heartbeatUrn : String := "urn:x-intel:context:retailsensingplatform:heartbeat"

/-- See `heartbeatUrn`. -/
def eventsUrn : String := "urn:x-intel:context:retailsensingplatform:events"

/-- See `heartbeatUrn`. -/
def alertsUrn : String := "urn:x-intel:context:retailsensingplatform:alerts"

/-- Go `postNotification` (main.go), its parameter `to` written `toURL`.  The error of `http.NewRequest` is
discarded there, so a failed request construction leaves `request` nil and
`request.Header.Set` panics.  After `client.Do` the function executes
`return err` both for a transport error and for a status other than 200; in
the latter case `err` is nil. -/
def postNotification (env : Env) (data : Dyn) (toURL : String) (w : World) :
    Outcome (Option GoError) × World :=
  match env.marshal data with
  | .ok mData =>
    match NewRequest env "POST" toURL mData with
    | .error _ => (.panicked, w)
    | .ok request =>
      let request := request.setHeader "content-type" jsonApplication
      match clientDo env request w with
      | (.error err, w) => (.returned (some err), w)
      | (.ok response, w) =>
        if response.StatusCode ≠ 200 then
          (.returned none, w)
        else
          -- deferred: response.Body.Close()
          let w := match response.Body.close with
            | some _ => w.logLine .info "post notification to notification service"
            | none => w
          (.returned none, w)
  | .error _ => (.returned none, w)

/-- Go `processHeartbeat` (main.go); `string(*jsonBytes)` keeps the bytes. -/
def processHeartbeat (env : Env) (cfg : Config) (jsonBytes : Bytes) (w : World) :
    Outcome (Option GoError) × World :=
  let jsoned := jsonBytes
  let w := w.logLine .info "Received Heartbeat:\n%s"
  let heartbeatEndpoint := cfg.SendHeartbeatTo
  match postNotification env (.text jsoned) heartbeatEndpoint w with
  | (.panicked, w) => (.panicked, w)
  | (.returned (some err), w) =>
    (.returned (some err), w.logLine .error "Problem sending Heartbeat: %s")
  | (.returned none, w) => (.returned none, w.logLine .info "Sent Heartbeat to %s")

/-- Go `processEvent` (main.go). -/
def processEvent (env : Env) (cfg : Config) (jsonBytes : Bytes) (w : World) :
    Outcome (Option GoError) × World :=
  let jsoned := jsonBytes
  let w := w.logLine .info "Received event:\n%s"
  let eventEndpoint := cfg.SendEventTo
  match postNotification env (.text jsoned) eventEndpoint w with
  | (.panicked, w) => (.panicked, w)
  | (.returned (some err), w) =>
    (.returned (some err), w.logLine .error "Problem sending Event: %s")
  | (.returned none, w) => (.returned none, w.logLine .info "Sent event to %s")

/-- Go `processAlert` (main.go). -/
def processAlert (env : Env) (cfg : Config) (jsonBytes : Bytes) (w : World) :
    Outcome (Option GoError) × World :=
  let jsoned := jsonBytes
  let w := w.logLine .info "Received alert:\n%s"
  let eventEndpoint := cfg.SendAlertTo
  match postNotification env (.text jsoned) eventEndpoint w with
  | (.panicked, w) => (.panicked, w)
  | (.returned (some err), w) =>
    (.returned (some err), w.logLine .error "Problem sending Event: %s")
  | (.returned none, w) => (.returned none, w.logLine .info "Sent alert to %s")

/-- What the `select` of the dispatcher goroutine in `initSensing` can
receive in one iteration. -/
inductive Signal where
  | started (ok : Bool)
  | heartbeat (item : ProviderItem)
  | event (item : ProviderItem)
  | alert (item : ProviderItem)
  | sensingError (err : GoError)

/-- How one iteration of the dispatcher loop ends: the loop goes on, the
process exits through `log.Fatal`, or the goroutine panics. -/
inductive LoopStatus where
  | running
  | exited
  | panicked
  deriving DecidableEq, Repr

/-- Go `json.MarshalIndent(item, "", "  ")` as the dispatcher uses it: on an
error the returned bytes are nil (empty) and the dispatcher logs `failure`
and carries on. -/
def marshalItem (env : Env) (item : ProviderItem) (failure : String) (w : World) :
    Bytes × World :=
  match env.marshalIndent (.item item) "" "  " with
  | .ok jsonBytes => (jsonBytes, w)
  | .error _ => ([], w.logLine .error failure)

/-- One iteration of the `for { select { ... } }` loop of `initSensing`
(main.go) on the signal `sig`. -/
def initSensingStep (env : Env) (cfg : Config) (sig : Signal) (w : World) :
    LoopStatus × World :=
  match sig with
  | .started ok =>
    if !ok then
      (.exited, w.logLine .fatal "sensing has failed to start")
    else
      let w := w.logLine .info "Sensing has started"
      let w := { w with listeners := w.listeners ++ [heartbeatUrn, eventsUrn, alertsUrn] }
      (.running, w.logLine .info "Waiting for Heartbeat, Event, and Alert data....")
  | .heartbeat heartbeat =>
    let (jsonBytes, w) := marshalItem env heartbeat "Unable to process heartbeat" w
    match processHeartbeat env cfg jsonBytes w with
    | (.panicked, w) => (.panicked, w)
    | (.returned (some _), w) => (.running, w.logLine .error "error processing heartbeat data")
    | (.returned none, w) => (.running, w)
  | .event event =>
    let (jsonBytes, w) := marshalItem env event "Unable to process event" w
    match processEvent env cfg jsonBytes w with
    | (.panicked, w) => (.panicked, w)
    | (.returned (some _), w) => (.running, w.logLine .error "error processing event")
    | (.returned none, w) => (.running, w)
  | .alert alert =>
    let (jsonBytes, w) := marshalItem env alert "Unable to process alert" w
    match processAlert env cfg jsonBytes w with
    | (.panicked, w) => (.panicked, w)
    | (.returned (some _), w) => (.running, w.logLine .error "error processing alert")
    | (.returned none, w) => (.running, w)
  | .sensingError _ => (.running, w.logLine .error "Received sensingSdk error: %v")

/-- The dispatcher loop of `initSensing` on a finite sequence of signals: it
stops at the first iteration that exits or panics. -/
def initSensingLoop (env : Env) (cfg : Config) : List Signal → World → LoopStatus × World
  | [], w => (.running, w)
  | sig :: rest, w =>
    match initSensingStep env cfg sig w with
    | (.running, w) => initSensingLoop env cfg rest w
    | stopped => stopped

/-! ## Package `handlers`: the HTTP boundary -/

/-- An inbound `*http.Request` as far as the handler reads it: the declared
content length and the bytes its body delivers before the end of the
stream. -/
structure HttpRequest where
  ContentLength : Int
  Body : Bytes

/-- Go `io.ReadFull(stream, buf)` with `len(buf) = n`: exactly `n` bytes, or
`EOF` when nothing could be read, or `ErrUnexpectedEOF` when the stream ends
early; an empty buffer is filled at once. -/
def ReadFull (stream : Bytes) (n : Nat) : Except GoError Bytes :=
  if n = 0 then .ok []
  else if n ≤ stream.length then .ok (stream.take n)
  else if stream.length = 0 then .error (.new "EOF")
  else .error (.new "unexpected EOF")

/-- Go `var payload models.AlertMessage`: the zero value (zero time, alert
number 0, the fields not looked at standing as `null`). -/
def AlertMessage.zero : AlertMessage := ⟨0, ⟨0, .null⟩, .null⟩

/-- Go `readAndValidateRequest` (handlers.go) with `v` pointing at an
`AlertMessage`: the returned pair `(interface{}, error)` and the message
pointed at after the call.  `make([]byte, request.ContentLength)` panics for
a negative length and for a length beyond the limit of the runtime. -/
def readAndValidateRequest (env : Env) (request : HttpRequest) (schema : String)
    (v : AlertMessage) : Outcome ((Option Json × Option GoError) × AlertMessage) :=
  if request.ContentLength < 0 ∨ request.ContentLength > env.maxSliceLen then .panicked
  else
    -- Reading request
    match ReadFull request.Body request.ContentLength.toNat with
    | .error err => .returned ((none, some (.wrapError .errValidation err)), v)
    | .ok body =>
      -- Unmarshal request as json
      match unmarshalAlertMessage env body with
      | .error err => .returned ((none, some (.wrapError .errValidation err)), v)
      | .ok decoded =>
        -- Validate json against schema
        match env.validateSchemaRequest body schema with
        | .error err => .returned ((none, some err), decoded)
        | .ok violations =>
          if !violations.isEmpty then
            .returned ((some (env.buildErrorsString violations), none), decoded)
          else
            .returned ((none, none), decoded)

/-- Modelled from the spec: one call of `web.Respond` (package `pkg/web`,
outside the available sources) writes one response to the caller, with the
given body and HTTP status code. -/
structure Responded where
  data : Option Json
  code : Int

/-- What a run of the handler leaves behind: how it ended (returned error or
panic), the responses written through `web.Respond` in order, the channel
handed to the spawned `alert.NotifyChannel` goroutine if any, and the
world. -/
structure HandlerResult where
  outcome : Outcome (Option GoError)
  responses : List Responded
  spawned : Option Chan
  world : World

/-- Go `Alerts.SendAlertMessageToCloudConnector` (handlers.go).  `now` is the
clock reading taken inside `populateAlertNotificationPayload`;
`make(chan ..., size)` panics for a negative size and for a size beyond the
limit of the runtime. -/
def SendAlertMessageToCloudConnector (env : Env) (cfg : Config) (now : Time)
    (request : HttpRequest) (w : World) : HandlerResult :=
  let payload := AlertMessage.zero
  match readAndValidateRequest env request env.alertMessageSchema payload with
  | .panicked => ⟨.panicked, [], none, w⟩
  | .returned ((_, some err), _) => ⟨.returned (some err), [], none, w⟩
  | .returned ((some inputValErrs, none), _) =>
    ⟨.returned (some (.new "could not validate request alertmessage schema")),
      [⟨some inputValErrs, 400⟩], none, w⟩
  | .returned ((none, none), payload) =>
    let payload := populateAlertNotificationPayload now payload
    match env.marshal (.alertMessage payload) with
    | .error _ =>
      ⟨.returned (some (.new "could not marshal the payload json bytes")),
        [⟨none, 400⟩], none, w⟩
    | .ok alertBytes =>
      if cfg.NotificationChanSize < 0 ∨ cfg.NotificationChanSize > env.maxChanSize then
        ⟨.panicked, [], none, w⟩
      else
        let notificationChan := Chan.make cfg.NotificationChanSize.toNat
        match ProcessAlert env alertBytes notificationChan w with
        | (some _, _, w) =>
          ⟨.returned (some (.new "process alert error")), [⟨none, 500⟩], none, w⟩
        | (none, notificationChan, w) =>
          ⟨.returned none,
            [⟨some (.str "RFID Alert Service has successfully process alertMessage to cloud connector"),
              200⟩],
            some notificationChan, w⟩

/-! ## Gateway liveness, as the specification describes it

The registry of gateways, its two operations and `models.GatewayRegisteredAlert`
belong to files of the repository that are not among the sources
(`main_test.go` only calls them).  They are written here from the
specification. -/

/-- Modelled from the spec: `models.Heartbeat` is declared outside the
available sources; `main_test.go` reads its `DeviceID` and its `Facilities`.
An absent facility list (a nil slice) is `none`. -/
structure Heartbeat where
  DeviceID : String
  Facilities : Option (List String)

/-- Modelled from the spec: the constant `models.UndefinedFacility`, the
sentinel `UNDEFINED_FACILITY`. -/
def UndefinedFacility : String := "UNDEFINED_FACILITY"

/-- Modelled from the spec: facility normalization.  An empty or absent
facility list is replaced by the single-element list holding the sentinel; a
non-empty list is kept in its original order. -/
def normalizeFacilities : Option (List String) → List String
  | none => [UndefinedFacility]
  | some [] => [UndefinedFacility]
  | some (facility :: rest) => facility :: rest

/-- Modelled from the spec: the alert synthesized on a change of gateway
status, as far as the specification and `TestHeartbeatAlert` describe it: the
device, its facility list and what happened. -/
structure GatewayAlert where
  DeviceID : String
  Facilities : List String
  AlertDescription : String
  deriving DecidableEq, Repr

/-- Modelled from the spec: `models.GatewayRegisteredAlert`, which
`TestHeartbeatAlert` calls as `alert, deviceID := GatewayRegisteredAlert(heartbeat)`:
the `Gateway Registered` alert of a heartbeat, carrying its device id and its
normalized facility list, together with the device id. -/
def GatewayRegisteredAlert (heartbeat : Heartbeat) : GatewayAlert × String :=
  (⟨heartbeat.DeviceID, normalizeFacilities heartbeat.Facilities, "Gateway Registered"⟩,
    heartbeat.DeviceID)

/-- Modelled from the spec: the stored states of a gateway; a gateway absent
from the registry is unregistered. -/
inductive RegistrationStatus where
  | Registered
  | Deregistered
  deriving DecidableEq, Repr

/-- Modelled from the spec: the `GatewayRecord` of the data model. -/
structure GatewayRecord where
  gatewayID : String
  facilities : List String
  registrationStatus : RegistrationStatus
  missedHeartbeatCount : Nat
  lastHeartbeatAt : Time
  deriving DecidableEq, Repr

/-- Modelled from the spec: a notification synthesized by the registry: its
message, the gateway it is about and the facility list attached to it. -/
structure GatewayNotification where
  message : String
  gatewayID : String
  facilities : List String
  deriving DecidableEq, Repr

/-- Modelled from the spec: the `Gateway Deregistered` notification of a
record. -/
def deregisteredNotification (record : GatewayRecord) : GatewayNotification :=
  ⟨"Gateway Deregistered", record.gatewayID, record.facilities⟩

/-- Modelled from the spec: the `Gateway Registered` notification of a
record. -/
def registeredNotification (record : GatewayRecord) : GatewayNotification :=
  ⟨"Gateway Registered", record.gatewayID, record.facilities⟩

/-- Modelled from the spec: the effect of one watchdog tick on one record.  A
deregistered record is left alone.  A registered record whose last heartbeat
is older than the threshold has its missed count incremented by one, and when
the count thereby reaches `maxMissed` it becomes deregistered and the
`Gateway Deregistered` notification is emitted. -/
def tickRecord (now threshold : Int) (maxMissed : Nat) (record : GatewayRecord) :
    GatewayRecord × List GatewayNotification :=
  match record.registrationStatus with
  | .Deregistered => (record, [])
  | .Registered =>
    if now - record.lastHeartbeatAt > threshold then
      let record := { record with missedHeartbeatCount := record.missedHeartbeatCount + 1 }
      if record.missedHeartbeatCount ≥ maxMissed then
        ({ record with registrationStatus := .Deregistered }, [deregisteredNotification record])
      else (record, [])
    else (record, [])

/-- Modelled from the spec: `OnWatchdogTick(now, heartbeatIntervalThreshold,
maxMissed)` on the whole registry: every record takes the tick, the
notifications are collected in registry order. -/
def OnWatchdogTick (now threshold : Int) (maxMissed : Nat) :
    List GatewayRecord → List GatewayRecord × List GatewayNotification
  | [] => ([], [])
  | record :: rest =>
    ((tickRecord now threshold maxMissed record).1
        :: (OnWatchdogTick now threshold maxMissed rest).1,
      (tickRecord now threshold maxMissed record).2
        ++ (OnWatchdogTick now threshold maxMissed rest).2)

/-- Modelled from the spec: `OnHeartbeat(gatewayID, facilities, now)`.  An
unseen id gets a record (registered, nothing missed) and a `Gateway
Registered` notification; a registered gateway has its count reset and its
time updated without notification; a deregistered gateway is registered again
with a `Gateway Registered` notification. -/
def OnHeartbeat (gatewayID : String) (facilities : Option (List String)) (now : Time) :
    List GatewayRecord → List GatewayRecord × List GatewayNotification
  | [] =>
    ([⟨gatewayID, normalizeFacilities facilities, .Registered, 0, now⟩],
      [registeredNotification ⟨gatewayID, normalizeFacilities facilities, .Registered, 0, now⟩])
  | record :: rest =>
    if record.gatewayID = gatewayID then
      match record.registrationStatus with
      | .Registered =>
        ({ record with missedHeartbeatCount := 0, lastHeartbeatAt := now } :: rest, [])
      | .Deregistered =>
        ({ record with registrationStatus := .Registered, missedHeartbeatCount := 0,
                       lastHeartbeatAt := now } :: rest,
          [registeredNotification record])
    else
      ((record :: (OnHeartbeat gatewayID facilities now rest).1),
        (OnHeartbeat gatewayID facilities now rest).2)

/-- A run of watchdog ticks at the given clock readings, one after the other,
with the notifications they emit in order. -/
def watchdogTicks (threshold : Int) (maxMissed : Nat) :
    List Time → List GatewayRecord → List GatewayRecord × List GatewayNotification
  | [], registry => (registry, [])
  | now :: later, registry =>
    ((watchdogTicks threshold maxMissed later
        (OnWatchdogTick now threshold maxMissed registry).1).1,
      (OnWatchdogTick now threshold maxMissed registry).2
        ++ (watchdogTicks threshold maxMissed later
            (OnWatchdogTick now threshold maxMissed registry).1).2)

/-- Modelled from the spec: the registry maps a gateway id to its record; the
record of a gateway is the one stored under its id. -/
def lookupGateway (gatewayID : String) (registry : List GatewayRecord) : Option GatewayRecord :=
  registry.find? (fun record => record.gatewayID = gatewayID)

/-- Modelled from the spec: every notification names the gateway it is about;
these are the notifications about one gateway among those emitted, in order. -/
def emittedFor (gatewayID : String) (emitted : List GatewayNotification) :
    List GatewayNotification :=
  emitted.filter (fun notification => notification.gatewayID = gatewayID)

/-! ## Specification of a delivery -/

/-- The POST request that the delivery of `notification` amounts to, in the
words of the specification: the payload is generated, marshalled with
`json.MarshalIndent` and addressed to the cloud connector.  There is none when
the payload cannot be generated or marshalled or when the address does not
parse.  What the endpoint answers plays no part. -/
def deliveryAttempt (env : Env) (cfg : Config) (notification : Notification) :
    Option Request :=
  match env.generatePayload notification with
  | .error _ => none
  | .ok generated =>
    match env.marshalIndent generated.Data "" "    " with
    | .error _ => none
    | .ok mData =>
      match env.parseURL (cfg.CloudConnectorURL ++ cfg.CloudConnectorEndpoint) with
      | some _ => none
      | none =>
        some ⟨"POST", cfg.CloudConnectorURL ++ cfg.CloudConnectorEndpoint, mData,
          [("content-type", jsonApplication)]⟩

/-- The POST requests that relaying the serialized text `jsonBytes` of a
sensing item to `destination` amounts to, in the words of the specification:
one request to that destination, carrying what `json.Marshal` makes of the
text, or none when nothing can be marshalled or addressed. -/
def relayAttempt (env : Env) (jsonBytes : Bytes) (destination : String) : List Request :=
  match env.marshal (.text jsonBytes) with
  | .error _ => []
  | .ok mData =>
    match env.parseURL destination with
    | some _ => []
    | none => [⟨"POST", destination, mData, [("content-type", jsonApplication)]⟩]

/-! ## Sample inputs -/

/-- The bytes of the document `{"value":{"gateway_id":"g"}}`. -/
def docWithGateway : Bytes :=
  [123, 34, 118, 97, 108, 117, 101, 34, 58, 123, 34, 103, 97, 116, 101, 119, 97, 121, 95,
    105, 100, 34, 58, 34, 103, 34, 125, 125]

/-- The bytes of the document `{"value":{}}`. -/
def docNoGateway : Bytes := [123, 34, 118, 97, 108, 117, 101, 34, 58, 123, 125, 125]

/-- The bytes of the document `{"value":7}`. -/
def docValueNumber : Bytes := [123, 34, 118, 97, 108, 117, 101, 34, 58, 55, 125]

/-- The bytes of the document `{}`. -/
def docEmptyObject : Bytes := [123, 125]

/-- The bytes of the document `[]`. -/
def docArray : Bytes := [91, 93]

/-- An endpoint that answers every request with the given status and the
body `ok`. -/
def respondWith (status : Int) : Nat → Request → Except GoError Response :=
  fun _ _ => .ok ⟨status, ⟨.ok [111, 107], none⟩⟩

/-- A small environment on which the model can be run: the codec knows the
five sample documents, encodes a Go string between quotes and refuses a
sensing item with an unsupported value; a URL parses unless it starts with a
colon; payload
generation and schema validation succeed; the endpoint behaves as
`respond` says; `make` accepts `2^48` bytes and `2^42` channel slots. -/
def sampleEnv (respond : Nat → Request → Except GoError Response) : Env where
  unmarshal := fun bytes =>
    if bytes = docWithGateway then .ok (.obj [("value", .obj [("gateway_id", .str "g")])])
    else if bytes = docNoGateway then .ok (.obj [("value", .obj [])])
    else if bytes = docValueNumber then .ok (.obj [("value", .num "7")])
    else if bytes = docEmptyObject then .ok (.obj [])
    else if bytes = docArray then .ok (.arr [])
    else .error (.new "invalid character")
  decodeAlertMessage := fun doc =>
    match doc with
    | .obj members => .ok ⟨0, ⟨0, (Json.member "value" members).getD .null⟩, .null⟩
    | _ => .error (.new "json: cannot unmarshal into Go value of type models.AlertMessage")
  marshal := fun data =>
    match data with
    | .text s => .ok ([34] ++ s ++ [34])
    | .item ⟨_, .unsupported _⟩ => .error (.new "json: unsupported type")
    | .alertMessage _ => .ok docNoGateway
    | _ => .ok docEmptyObject
  marshalIndent := fun data _ _ =>
    match data with
    | .text s => .ok ([34] ++ s ++ [34])
    | .item ⟨_, .unsupported _⟩ => .error (.new "json: unsupported type")
    | .alertMessage _ => .ok docNoGateway
    | _ => .ok docEmptyObject
  parseURL := fun url =>
    match url.data with
    | ':' :: _ => some (.new "parse: missing protocol scheme")
    | _ => none
  clientDo := respond
  generatePayload := fun notification => .ok notification
  validateSchemaRequest := fun _ _ => .ok []
  buildErrorsString := fun violations => .arr (violations.map .str)
  alertMessageSchema := "AlertMessageSchema"
  maxSliceLen := 281474976710656
  maxChanSize := 4398046511104

/-- A configuration with a notification channel of 20 slots. -/
def sampleConfig : Config :=
  ⟨"http://cloud-connector:8080", "/callwebhook", 20,
    "http://destination/heartbeat", "http://destination/event", "http://destination/alert"⟩

/-- The world before anything happened. -/
def World.empty : World := ⟨[], [], []⟩

/-- A sensing item whose value cannot be encoded as JSON. -/
def unencodableItem : ProviderItem := ⟨heartbeatUrn, .unsupported "chan int"⟩

/-- The sample environment with a schema validator that itself fails. -/
def envValidatorFails : Env :=
  { sampleEnv (respondWith 200) with
    validateSchemaRequest := fun _ _ => .error (.new "schema does not compile") }

/-- The sample environment with a schema validator that reports a
violation. -/
def envSchemaInvalid : Env :=
  { sampleEnv (respondWith 200) with
    validateSchemaRequest := fun _ _ => .ok ["alert_number: is required"] }

/-- The sample environment with an encoder that writes `{}` for everything,
so that the re-encoded alert has no `value` member. -/
def envEncodesEmpty : Env :=
  { sampleEnv (respondWith 200) with marshal := fun _ => .ok docEmptyObject }

/-- A request announcing and delivering the document `{"value":{}}`. -/
def requestNoGateway : HttpRequest := ⟨12, docNoGateway⟩

/-- The sample environment with a payload generation that fails. -/
def envPayloadFails : Env :=
  { sampleEnv (respondWith 200) with
    generatePayload := fun _ => .error (.new "cannot generate payload") }

/-- The sample configuration with a cloud connector address that does not
parse as a URL. -/
def configBadURL : Config := { sampleConfig with CloudConnectorURL := "://cloud-connector" }

/-- A notification as `ProcessAlert` builds it. -/
def sampleNotification : Notification :=
  ⟨"Process Alert", AlertType, .alert ⟨686, .null⟩, "g"⟩

/-- A notification whose data cannot be encoded as JSON. -/
def unencodableNotification : Notification :=
  ⟨"Process Alert", AlertType, .item unencodableItem, "g"⟩

/-- A channel of 20 slots holding 15 notifications. -/
def chanFifteen : Chan := ⟨20, List.replicate 15 sampleNotification, [], []⟩

/-- The sample environment with a decoding into `models.AlertMessage` that
fails (a member of the wrong JSON type). -/
def envDecodeFails : Env :=
  { sampleEnv (respondWith 200) with
    decodeAlertMessage := fun _ =>
      .error (.new "json: cannot unmarshal string into Go struct field of type int") }

/-- The sample configuration with a notification channel of 5 slots. -/
def configSmallChan : Config := { sampleConfig with NotificationChanSize := 5 }

/-- The heartbeat of `mockGenerateHeartbeat` (main_test.go), as decoded. -/
def mockHeartbeat : Heartbeat := ⟨"rrpgw", some ["facility1", "facility2"]⟩

/-- The heartbeat of `mockGenerateHeartbeatNoFacility` (main_test.go), as
decoded. -/
def mockHeartbeatNoFacility : Heartbeat := ⟨"rrpgw", some []⟩

/-- A heartbeat without any `facilities` member. -/
def mockHeartbeatAbsentFacility : Heartbeat := ⟨"rrpgw", none⟩

/-- The record of gateway `rrpgw` right after its first heartbeat at time 0. -/
def freshRecord : GatewayRecord := ⟨"rrpgw", ["facility1", "facility2"], .Registered, 0, 0⟩

/-- The inside of a JSON string literal for the given text: a backslash goes
before every quote and backslash. -/
def escapeText : Bytes → Bytes
  | [] => []
  | b :: rest =>
    if b = 34 ∨ b = 92 then 92 :: b :: escapeText rest else b :: escapeText rest

/-- The text of a JSON string literal, read from behind its opening quote up
to its closing quote. -/
def unescapeText : Bytes → Bytes
  | [] => []
  | 92 :: b :: rest => b :: unescapeText rest
  | 34 :: _ => []
  | b :: rest => b :: unescapeText rest

/-- The sample environment with a codec that writes a Go string as a JSON
string literal and reads a JSON string literal as a JSON string. -/
def envQuoting : Env :=
  { sampleEnv (respondWith 200) with
    marshal := fun data =>
      match data with
      | .text s => .ok (34 :: (escapeText s ++ [34]))
      | other => (sampleEnv (respondWith 200)).marshal other
    unmarshal := fun bytes =>
      match bytes with
      | 34 :: rest => .ok (.str (String.mk ((unescapeText rest).map Char.ofNat)))
      | other => (sampleEnv (respondWith 200)).unmarshal other }

/-- The bytes of the JSON string literal whose text is the document
`{"value":{}}`: the document between quotes, its own quotes escaped. -/
def quotedNoGateway : Bytes :=
  [34, 123, 92, 34, 118, 97, 108, 117, 101, 92, 34, 58, 123, 125, 125, 34]

/-- A channel of one slot, taken, with one goroutine started to send
`sampleNotification`. -/
def chanFullOneSpawned : Chan := ⟨1, [sampleNotification], [], [sampleNotification]⟩

/-- A channel of 20 slots holding 5 notifications. -/
def chanFive : Chan := ⟨20, List.replicate 5 sampleNotification, [], []⟩

/-- The bytes of the document `{"value":{"gateway_id":7}}`. -/
def docGatewayNumber : Bytes :=
  [123, 34, 118, 97, 108, 117, 101, 34, 58, 123, 34, 103, 97, 116, 101, 119, 97, 121, 95,
    105, 100, 34, 58, 55, 125, 125]

/-- The sample environment with a codec that also knows the document
`{"value":{"gateway_id":7}}`. -/
def envGatewayNumber : Env :=
  { sampleEnv (respondWith 200) with
    unmarshal := fun bytes =>
      if bytes = docGatewayNumber then
        .ok (.obj [("value", .obj [("gateway_id", .num "7")])])
      else (sampleEnv (respondWith 200)).unmarshal bytes }

/-- The sample configuration with a channel size five above the least Go
`int`, for which `NotificationChanSize - 10` wraps around. -/
def configWrapping : Config :=
  { sampleConfig with NotificationChanSize := -9223372036854775803 }

/-- The sample configuration with a negative channel size. -/
def configNegativeChan : Config := { sampleConfig with NotificationChanSize := -1 }

/-- The record of a second gateway, `rrpgw2`, registered at time 0 as well. -/
def otherRecord : GatewayRecord := ⟨"rrpgw2", ["facility3"], .Registered, 0, 0⟩

/-- The sample environment with an encoder that fails on everything. -/
def envMarshalFails : Env :=
  { sampleEnv (respondWith 200) with marshal := fun _ => .error (.new "json: unsupported type") }

/-! ## Theorems -/

/-- C1: after `populateAlertNotificationPayload` the alert number is 686 when
it was 0 and is unchanged for every other value (so 0 becomes 686 and 42
stays 42). -/
theorem populate_alert_number (now : Time) (p : AlertMessage) :
    ((populateAlertNotificationPayload now p).Value.AlertNumber
        = if p.Value.AlertNumber = 0 then 686 else p.Value.AlertNumber)
    ∧ (∀ other j t, (populateAlertNotificationPayload now ⟨t, ⟨0, other⟩, j⟩).Value.AlertNumber = 686)
    ∧ (∀ other j t, (populateAlertNotificationPayload now ⟨t, ⟨42, other⟩, j⟩).Value.AlertNumber = 42) := by
  refine ⟨?_, ?_, ?_⟩
  · unfold populateAlertNotificationPayload
    by_cases h : p.Value.AlertNumber = 0 <;> simp [h]
  · intro other j t
    simp [populateAlertNotificationPayload]
  · intro other j t
    simp [populateAlertNotificationPayload]

/-- The value returned by `PostNotification` is decided by the four steps it
goes through; the world it threads does not influence it beyond numbering
the attempt. -/
theorem PostNotification_result (env : Env) (data : Dyn) (toURL : String) (w : World) :
    (PostNotification env data toURL w).1 =
      match env.marshalIndent data "" "    " with
      | .error _ => (none, some (.new "Payload Marshalling failed  %v"))
      | .ok mData =>
        match NewRequest env "POST" toURL mData with
        | .error reqErr => (none, some reqErr)
        | .ok request =>
          match env.clientDo w.posts.length (request.setHeader "content-type" jsonApplication) with
          | .error respErr => (none, some respErr)
          | .ok response =>
            if response.StatusCode ≠ 200 then
              (none, some (.new "PostNotification failed with following response code %d"))
            else
              match response.Body.readAll with
              | .error err => (none, some (.wrap err "unable to ReadALL response.Body"))
              | .ok responseData => (some responseData, none) := by
  cases h1 : env.marshalIndent data "" "    " with
  | error e => simp [PostNotification, h1]
  | ok mData =>
    cases h2 : NewRequest env "POST" toURL mData with
    | error e => simp [PostNotification, h1, h2]
    | ok request =>
      cases h3 : env.clientDo w.posts.length (request.setHeader "content-type" jsonApplication) with
      | error e => simp [PostNotification, clientDo, World.logLine, h1, h2, h3]
      | ok response =>
        by_cases h4 : response.StatusCode = 200
        · cases h5 : response.Body.readAll with
          | error e => simp [PostNotification, clientDo, World.logLine, h1, h2, h3, h4, h5]
          | ok body => simp [PostNotification, clientDo, World.logLine, h1, h2, h3, h4, h5]
        · simp [PostNotification, clientDo, World.logLine, h1, h2, h3, h4]

/-- C3: `alert.PostNotification` returns `(body, nil)` exactly when the data
marshals, the request is built and sent without transport error, the response
status is 200 and the body is read; a response with any other status and any
transport error give nil data and a non-nil error. -/
theorem PostNotification_ok_iff (env : Env) (data : Dyn) (toURL : String) (w : World) :
    (∀ body, (PostNotification env data toURL w).1 = (some body, none) ↔
        ∃ mData request response,
          env.marshalIndent data "" "    " = .ok mData ∧
          NewRequest env "POST" toURL mData = .ok request ∧
          env.clientDo w.posts.length (request.setHeader "content-type" jsonApplication)
            = .ok response ∧
          response.StatusCode = 200 ∧
          response.Body.readAll = .ok body)
    ∧ (∀ mData request response,
          env.marshalIndent data "" "    " = .ok mData →
          NewRequest env "POST" toURL mData = .ok request →
          env.clientDo w.posts.length (request.setHeader "content-type" jsonApplication)
            = .ok response →
          response.StatusCode ≠ 200 →
          ∃ err, (PostNotification env data toURL w).1 = (none, some err))
    ∧ (∀ mData request respErr,
          env.marshalIndent data "" "    " = .ok mData →
          NewRequest env "POST" toURL mData = .ok request →
          env.clientDo w.posts.length (request.setHeader "content-type" jsonApplication)
            = .error respErr →
          (PostNotification env data toURL w).1 = (none, some respErr))
    ∧ ((∃ body, (PostNotification env data toURL w).1 = (some body, none))
        ∨ (∃ err, (PostNotification env data toURL w).1 = (none, some err))) := by
  rw [PostNotification_result]
  refine ⟨?_, ?_, ?_, ?_⟩
  · intro body
    constructor
    · intro h
      cases h1 : env.marshalIndent data "" "    " with
      | error e => simp [h1] at h
      | ok mData =>
        cases h2 : NewRequest env "POST" toURL mData with
        | error e => simp [h1, h2] at h
        | ok request =>
          cases h3 : env.clientDo w.posts.length (request.setHeader "content-type" jsonApplication) with
          | error e => simp [h1, h2, h3] at h
          | ok response =>
            by_cases h4 : response.StatusCode = 200
            · cases h5 : response.Body.readAll with
              | error e => simp [h1, h2, h3, h4, h5] at h
              | ok b =>
                simp [h1, h2, h3, h4, h5] at h
                exact ⟨mData, request, response, rfl, h2, h3, h4, by rw [h5, h]⟩
            · simp [h1, h2, h3, h4] at h
    · rintro ⟨mData, request, response, h1, h2, h3, h4, h5⟩
      simp [h1, h2, h3, h4, h5]
  · intro mData request response h1 h2 h3 h4
    exact ⟨.new "PostNotification failed with following response code %d", by simp [h1, h2, h3, h4]⟩
  · intro mData request respErr h1 h2 h3
    simp [h1, h2, h3]
  · cases h1 : env.marshalIndent data "" "    " with
    | error e => exact Or.inr ⟨_, rfl⟩
    | ok mData =>
      cases h2 : NewRequest env "POST" toURL mData with
      | error e => exact Or.inr ⟨e, by simp [h2]⟩
      | ok request =>
        cases h3 : env.clientDo w.posts.length (request.setHeader "content-type" jsonApplication) with
        | error e => exact Or.inr ⟨e, by simp [h2, h3]⟩
        | ok response =>
          by_cases h4 : response.StatusCode = 200
          · cases h5 : response.Body.readAll with
            | error e => exact Or.inr ⟨.wrap e "unable to ReadALL response.Body", by simp [h2, h3, h4, h5]⟩
            | ok b => exact Or.inl ⟨b, by simp [h2, h3, h4, h5]⟩
          · exact Or.inr ⟨.new "PostNotification failed with following response code %d", by simp [h2, h3, h4]⟩

/-- C3, at concrete inputs: an endpoint answering 200 with body `ok` gives
`(ok, nil)`; an endpoint answering 400 and a transport error give nil data and
an error. -/
theorem PostNotification_ok_iff_witness :
    (PostNotification (sampleEnv (respondWith 200)) (.json .null) "http://cloud" World.empty).1
        = (some [111, 107], none)
    ∧ (∃ err, (PostNotification (sampleEnv (respondWith 400)) (.json .null) "http://cloud"
        World.empty).1 = (none, some err))
    ∧ (PostNotification (sampleEnv (fun _ _ => .error (.new "timeout"))) (.json .null)
        "http://cloud" World.empty).1 = (none, some (.new "timeout")) :=
  ⟨((PostNotification_ok_iff (sampleEnv (respondWith 200)) (.json .null) "http://cloud"
      World.empty).1 [111, 107]).mpr
      ⟨docEmptyObject, ⟨"POST", "http://cloud", docEmptyObject, []⟩,
        ⟨200, ⟨.ok [111, 107], none⟩⟩, rfl, rfl, rfl, rfl, rfl⟩,
   (PostNotification_ok_iff (sampleEnv (respondWith 400)) (.json .null) "http://cloud"
      World.empty).2.1 docEmptyObject ⟨"POST", "http://cloud", docEmptyObject, []⟩
      ⟨400, ⟨.ok [111, 107], none⟩⟩ rfl rfl rfl (by decide),
   (PostNotification_ok_iff (sampleEnv (fun _ _ => .error (.new "timeout"))) (.json .null)
      "http://cloud" World.empty).2.2.1 docEmptyObject
      ⟨"POST", "http://cloud", docEmptyObject, []⟩ (.new "timeout") rfl rfl rfl⟩

/-- In `postNotification` of main.go a response with a status other than 200
takes the branch `return err` with `err` nil. -/
theorem postNotification_status_not_ok (env : Env) (data : Dyn) (toURL : String) (w : World)
    (mData : Bytes) (request : Request) (response : Response)
    (h1 : env.marshal data = .ok mData)
    (h2 : NewRequest env "POST" toURL mData = .ok request)
    (h3 : env.clientDo w.posts.length (request.setHeader "content-type" jsonApplication)
            = .ok response)
    (h4 : response.StatusCode ≠ 200) :
    (postNotification env data toURL w).1 = .returned none := by
  simp [postNotification, clientDo, h1, h2, h3, h4]

/-- C2 (evaluation at the failing input): the heartbeat destination answers
400 without transport error; `postNotification` returns nil and
`processHeartbeat` returns nil and logs the heartbeat as sent. -/
theorem postNotification_status_400_returns_nil :
    (postNotification (sampleEnv (respondWith 400)) (.text docEmptyObject)
        sampleConfig.SendHeartbeatTo World.empty).1 = .returned none
    ∧ (processHeartbeat (sampleEnv (respondWith 400)) sampleConfig docEmptyObject World.empty).1
        = .returned none
    ∧ (processHeartbeat (sampleEnv (respondWith 400)) sampleConfig docEmptyObject World.empty).2.log
        = [⟨.info, "Received Heartbeat:\n%s"⟩, ⟨.info, "Sent Heartbeat to %s"⟩] := by
  refine ⟨?_, ?_, ?_⟩ <;> rfl

/-- C4: `alert.ProcessAlert` returns a non-nil error when the input is not
valid JSON, when it is valid JSON but not an object, and when it is an object
whose member `value` is absent or is not an object (the failed type
assertion). -/
theorem ProcessAlert_rejects (env : Env) (jsonBytes : Bytes) (ch : Chan) (w : World) :
    (∀ err, env.unmarshal jsonBytes = .error err →
        (ProcessAlert env jsonBytes ch w).1 = some err)
    ∧ (∀ doc, env.unmarshal jsonBytes = .ok doc → (∀ members, doc ≠ .obj members) →
        (ProcessAlert env jsonBytes ch w).1 ≠ none)
    ∧ (∀ members, env.unmarshal jsonBytes = .ok (.obj members) →
        (∀ value, Json.member "value" members ≠ some (.obj value)) →
        (ProcessAlert env jsonBytes ch w).1 = some (.new "Type assertion failed")) := by
  refine ⟨?_, ?_, ?_⟩
  · intro err h
    simp [ProcessAlert, unmarshalMap, h]
  · intro doc h hdoc
    cases doc with
    | obj members => exact absurd rfl (hdoc members)
    | null => simp [ProcessAlert, unmarshalMap, h, mapIndex]
    | bool b => simp [ProcessAlert, unmarshalMap, h]
    | num l => simp [ProcessAlert, unmarshalMap, h]
    | str t => simp [ProcessAlert, unmarshalMap, h]
    | arr items => simp [ProcessAlert, unmarshalMap, h]
  · intro members h hvalue
    simp only [ProcessAlert, unmarshalMap, h, mapIndex]

/-- C4, at concrete inputs: bytes that are not JSON, the document `[]`, and
the documents `{}` and `{"value":7}` are all rejected. -/
theorem ProcessAlert_rejects_witness :
    (ProcessAlert (sampleEnv (respondWith 200)) [123] (Chan.make 20) World.empty).1
        = some (.new "invalid character")
    ∧ (ProcessAlert (sampleEnv (respondWith 200)) docArray (Chan.make 20) World.empty).1 ≠ none
    ∧ (ProcessAlert (sampleEnv (respondWith 200)) docEmptyObject (Chan.make 20) World.empty).1
        = some (.new "Type assertion failed")
    ∧ (ProcessAlert (sampleEnv (respondWith 200)) docValueNumber (Chan.make 20) World.empty).1
        = some (.new "Type assertion failed") :=
  ⟨(ProcessAlert_rejects (sampleEnv (respondWith 200)) [123] (Chan.make 20) World.empty).1
      (.new "invalid character") rfl,
   (ProcessAlert_rejects (sampleEnv (respondWith 200)) docArray (Chan.make 20) World.empty).2.1
      (.arr []) rfl (fun _ h => Json.noConfusion h),
   (ProcessAlert_rejects (sampleEnv (respondWith 200)) docEmptyObject (Chan.make 20)
      World.empty).2.2 [] rfl (fun _ h => Option.noConfusion h),
   (ProcessAlert_rejects (sampleEnv (respondWith 200)) docValueNumber (Chan.make 20)
      World.empty).2.2 [("value", .num "7")] rfl
      (fun _ h => Json.noConfusion (Option.some.inj h))⟩

/-- When the scheduler runs a started goroutine, its notification leaves the
started goroutines and lands in the channel: at the end of the buffer when
there is room, at the end of the queue of blocked senders otherwise. -/
theorem runSpawned_lands (c : Chan) (i : Nat) (n : Notification)
    (h : c.spawned.get? i = some n) :
    (c.buf.length < c.cap →
        (c.runSpawned i).buf = c.buf ++ [n] ∧ (c.runSpawned i).sendq = c.sendq)
    ∧ (c.cap ≤ c.buf.length →
        (c.runSpawned i).buf = c.buf ∧ (c.runSpawned i).sendq = c.sendq ++ [n])
    ∧ (c.runSpawned i).spawned = c.spawned.eraseIdx i
    ∧ (c.runSpawned i).cap = c.cap := by
  unfold Chan.runSpawned
  rw [h]
  by_cases hroom : c.buf.length < c.cap
  · refine ⟨fun _ => ?_, fun hfull => absurd hroom (not_lt.mpr hfull), ?_, ?_⟩ <;>
      simp [Chan.send, hroom]
  · refine ⟨fun hr => absurd hr hroom, fun _ => ?_, ?_, ?_⟩ <;> simp [Chan.send, hroom]

/-- C5: when the input is an object whose `value` is an object and which
decodes as an alert message, `alert.ProcessAlert` returns nil, whether or not
`value.gateway_id` is there, and starts one goroutine that sends the
notification `Process Alert`; the `GatewayID` of that notification is
`value.gateway_id` when that member is a string and the empty string when it
is absent or is not a string.  Whenever that goroutine is run, the
notification lands in the buffer of the channel, or among its blocked senders
when the buffer is full. -/
theorem ProcessAlert_gateway_optional (env : Env) (jsonBytes : Bytes) (ch : Chan) (w : World)
    (members value : List (String × Json)) (alertEvent : AlertMessage)
    (h1 : env.unmarshal jsonBytes = .ok (.obj members))
    (h2 : Json.member "value" members = some (.obj value))
    (h3 : env.decodeAlertMessage (.obj members) = .ok alertEvent) :
    (ProcessAlert env jsonBytes ch w).1 = none
    ∧ (∀ s, Json.member "gateway_id" value = some (.str s) →
        (ProcessAlert env jsonBytes ch w).2.1
          = { ch with spawned := ch.spawned ++
                [⟨"Process Alert", "Alert", .alert alertEvent.Value, s⟩] })
    ∧ (Json.member "gateway_id" value = none →
        (ProcessAlert env jsonBytes ch w).2.1
          = { ch with spawned := ch.spawned ++
                [⟨"Process Alert", "Alert", .alert alertEvent.Value, ""⟩] })
    ∧ (∀ j, Json.member "gateway_id" value = some j → (∀ s, j ≠ .str s) →
        (ProcessAlert env jsonBytes ch w).2.1
          = { ch with spawned := ch.spawned ++
                [⟨"Process Alert", "Alert", .alert alertEvent.Value, ""⟩] })
    ∧ (∀ (c : Chan) (i : Nat) (n : Notification), c.spawned.get? i = some n →
        (c.buf.length < c.cap →
          (c.runSpawned i).buf = c.buf ++ [n] ∧ (c.runSpawned i).sendq = c.sendq)
        ∧ (c.cap ≤ c.buf.length →
          (c.runSpawned i).buf = c.buf ∧ (c.runSpawned i).sendq = c.sendq ++ [n])
        ∧ (c.runSpawned i).spawned = c.spawned.eraseIdx i) := by
  have hland : ∀ (c : Chan) (i : Nat) (n : Notification), c.spawned.get? i = some n →
      (c.buf.length < c.cap →
        (c.runSpawned i).buf = c.buf ++ [n] ∧ (c.runSpawned i).sendq = c.sendq)
      ∧ (c.cap ≤ c.buf.length →
        (c.runSpawned i).buf = c.buf ∧ (c.runSpawned i).sendq = c.sendq ++ [n])
      ∧ (c.runSpawned i).spawned = c.spawned.eraseIdx i := by
    intro c i n h
    have hl := runSpawned_lands c i n h
    exact ⟨hl.1, hl.2.1, hl.2.2.1⟩
  cases hg : Json.member "gateway_id" value with
  | none =>
    refine ⟨?_, ?_, ?_, ?_, hland⟩
    · simp [ProcessAlert, unmarshalMap, unmarshalAlertMessage, mapIndex, h1, h2, h3, hg]
    · intro s h; cases h
    · intro _
      simp [ProcessAlert, unmarshalMap, unmarshalAlertMessage, mapIndex, h1, h2, h3, hg,
        AlertType, Chan.spawnSend]
    · intro j h; cases h
  | some g =>
    cases g with
    | str t =>
      refine ⟨?_, ?_, ?_, ?_, hland⟩
      · simp [ProcessAlert, unmarshalMap, unmarshalAlertMessage, mapIndex, h1, h2, h3, hg]
      · intro s h
        simp only [Option.some.injEq, Json.str.injEq] at h
        subst h
        simp [ProcessAlert, unmarshalMap, unmarshalAlertMessage, mapIndex, h1, h2, h3, hg,
          AlertType, Chan.spawnSend]
      · intro h; cases h
      · intro j h hj
        simp only [Option.some.injEq] at h
        exact absurd h.symm (hj t)
    | null =>
      refine ⟨?_, ?_, ?_, ?_, hland⟩
      · simp [ProcessAlert, unmarshalMap, unmarshalAlertMessage, mapIndex, h1, h2, h3, hg]
      · intro s h; simp at h
      · intro h; cases h
      · intro _ _ _
        simp [ProcessAlert, unmarshalMap, unmarshalAlertMessage, mapIndex, h1, h2, h3, hg,
          AlertType, Chan.spawnSend]
    | bool b =>
      refine ⟨?_, ?_, ?_, ?_, hland⟩
      · simp [ProcessAlert, unmarshalMap, unmarshalAlertMessage, mapIndex, h1, h2, h3, hg]
      · intro s h; simp at h
      · intro h; cases h
      · intro _ _ _
        simp [ProcessAlert, unmarshalMap, unmarshalAlertMessage, mapIndex, h1, h2, h3, hg,
          AlertType, Chan.spawnSend]
    | num l =>
      refine ⟨?_, ?_, ?_, ?_, hland⟩
      · simp [ProcessAlert, unmarshalMap, unmarshalAlertMessage, mapIndex, h1, h2, h3, hg]
      · intro s h; simp at h
      · intro h; cases h
      · intro _ _ _
        simp [ProcessAlert, unmarshalMap, unmarshalAlertMessage, mapIndex, h1, h2, h3, hg,
          AlertType, Chan.spawnSend]
    | arr items =>
      refine ⟨?_, ?_, ?_, ?_, hland⟩
      · simp [ProcessAlert, unmarshalMap, unmarshalAlertMessage, mapIndex, h1, h2, h3, hg]
      · intro s h; simp at h
      · intro h; cases h
      · intro _ _ _
        simp [ProcessAlert, unmarshalMap, unmarshalAlertMessage, mapIndex, h1, h2, h3, hg,
          AlertType, Chan.spawnSend]
    | obj ms =>
      refine ⟨?_, ?_, ?_, ?_, hland⟩
      · simp [ProcessAlert, unmarshalMap, unmarshalAlertMessage, mapIndex, h1, h2, h3, hg]
      · intro s h; simp at h
      · intro h; cases h
      · intro _ _ _
        simp [ProcessAlert, unmarshalMap, unmarshalAlertMessage, mapIndex, h1, h2, h3, hg,
          AlertType, Chan.spawnSend]

/-- C5, at concrete inputs: the documents `{"value":{"gateway_id":"g"}}`,
`{"value":{}}` and `{"value":{"gateway_id":7}}` are all accepted; the goroutine started for the first, once
run, leaves its notification in the buffer of the empty channel, and a
goroutine run on a full channel leaves its notification among the blocked
senders. -/
theorem ProcessAlert_gateway_optional_witness :
    (ProcessAlert (sampleEnv (respondWith 200)) docWithGateway (Chan.make 20) World.empty).1 = none
    ∧ (ProcessAlert (sampleEnv (respondWith 200)) docWithGateway (Chan.make 20)
          World.empty).2.1
        = { Chan.make 20 with spawned := (Chan.make 20).spawned ++
              [⟨"Process Alert", "Alert", .alert ⟨0, .obj [("gateway_id", .str "g")]⟩, "g"⟩] }
    ∧ (ProcessAlert (sampleEnv (respondWith 200)) docNoGateway (Chan.make 20) World.empty).1 = none
    ∧ (ProcessAlert (sampleEnv (respondWith 200)) docNoGateway (Chan.make 20)
          World.empty).2.1
        = { Chan.make 20 with spawned := (Chan.make 20).spawned ++
              [⟨"Process Alert", "Alert", .alert ⟨0, .obj []⟩, ""⟩] }
    ∧ (ProcessAlert envGatewayNumber docGatewayNumber (Chan.make 20) World.empty).2.1
        = { Chan.make 20 with spawned := (Chan.make 20).spawned ++
              [⟨"Process Alert", "Alert", .alert ⟨0, .obj [("gateway_id", .num "7")]⟩, ""⟩] }
    ∧ (((ProcessAlert (sampleEnv (respondWith 200)) docWithGateway (Chan.make 20)
          World.empty).2.1.runSpawned 0).buf
        = (ProcessAlert (sampleEnv (respondWith 200)) docWithGateway (Chan.make 20)
            World.empty).2.1.buf
          ++ [⟨"Process Alert", "Alert", .alert ⟨0, .obj [("gateway_id", .str "g")]⟩, "g"⟩]
      ∧ ((ProcessAlert (sampleEnv (respondWith 200)) docWithGateway (Chan.make 20)
          World.empty).2.1.runSpawned 0).sendq
        = (ProcessAlert (sampleEnv (respondWith 200)) docWithGateway (Chan.make 20)
            World.empty).2.1.sendq)
    ∧ ((chanFullOneSpawned.runSpawned 0).buf = chanFullOneSpawned.buf
      ∧ (chanFullOneSpawned.runSpawned 0).sendq = chanFullOneSpawned.sendq ++ [sampleNotification]) :=
  ⟨(ProcessAlert_gateway_optional (sampleEnv (respondWith 200)) docWithGateway (Chan.make 20)
      World.empty [("value", .obj [("gateway_id", .str "g")])] [("gateway_id", .str "g")]
      ⟨0, ⟨0, .obj [("gateway_id", .str "g")]⟩, .null⟩ rfl rfl rfl).1,
   (ProcessAlert_gateway_optional (sampleEnv (respondWith 200)) docWithGateway (Chan.make 20)
      World.empty [("value", .obj [("gateway_id", .str "g")])] [("gateway_id", .str "g")]
      ⟨0, ⟨0, .obj [("gateway_id", .str "g")]⟩, .null⟩ rfl rfl rfl).2.1 "g" rfl,
   (ProcessAlert_gateway_optional (sampleEnv (respondWith 200)) docNoGateway (Chan.make 20)
      World.empty [("value", .obj [])] [] ⟨0, ⟨0, .obj []⟩, .null⟩ rfl rfl rfl).1,
   (ProcessAlert_gateway_optional (sampleEnv (respondWith 200)) docNoGateway (Chan.make 20)
      World.empty [("value", .obj [])] [] ⟨0, ⟨0, .obj []⟩, .null⟩ rfl rfl rfl).2.2.1 rfl,
   (ProcessAlert_gateway_optional envGatewayNumber docGatewayNumber (Chan.make 20)
      World.empty [("value", .obj [("gateway_id", .num "7")])] [("gateway_id", .num "7")]
      ⟨0, ⟨0, .obj [("gateway_id", .num "7")]⟩, .null⟩ rfl rfl rfl).2.2.2.1 (.num "7") rfl
      (fun _ h => Json.noConfusion h),
   ((ProcessAlert_gateway_optional (sampleEnv (respondWith 200)) docWithGateway (Chan.make 20)
      World.empty [("value", .obj [("gateway_id", .str "g")])] [("gateway_id", .str "g")]
      ⟨0, ⟨0, .obj [("gateway_id", .str "g")]⟩, .null⟩ rfl rfl rfl).2.2.2.2
      (ProcessAlert (sampleEnv (respondWith 200)) docWithGateway (Chan.make 20) World.empty).2.1
      0 ⟨"Process Alert", "Alert", .alert ⟨0, .obj [("gateway_id", .str "g")]⟩, "g"⟩ rfl).1
      (by decide),
   ((ProcessAlert_gateway_optional (sampleEnv (respondWith 200)) docWithGateway (Chan.make 20)
      World.empty [("value", .obj [("gateway_id", .str "g")])] [("gateway_id", .str "g")]
      ⟨0, ⟨0, .obj [("gateway_id", .str "g")]⟩, .null⟩ rfl rfl rfl).2.2.2.2
      chanFullOneSpawned 0 sampleNotification rfl).2.1 (by decide)⟩

/-- C6 (counterexample): for a request whose body cannot be read in full
(five bytes announced, none delivered) and for a request whose body is not
JSON, the handler writes no response at all: it only returns the error. -/
theorem handler_validation_error_writes_nothing :
    (¬ ∃ r, (SendAlertMessageToCloudConnector (sampleEnv (respondWith 200)) sampleConfig 0
          ⟨5, []⟩ World.empty).responses = [r] ∧ r.code = 400)
    ∧ (¬ ∃ r, (SendAlertMessageToCloudConnector (sampleEnv (respondWith 200)) sampleConfig 0
          ⟨1, [123]⟩ World.empty).responses = [r] ∧ r.code = 400) := by
  have h1 : (SendAlertMessageToCloudConnector (sampleEnv (respondWith 200)) sampleConfig 0
      ⟨5, []⟩ World.empty).responses = [] := rfl
  have h2 : (SendAlertMessageToCloudConnector (sampleEnv (respondWith 200)) sampleConfig 0
      ⟨1, [123]⟩ World.empty).responses = [] := rfl
  rw [h1, h2]
  constructor <;> rintro ⟨r, h, _⟩ <;> cases h

/-- C6 (amended): the handler writes at most one response per request.  It
writes none when `readAndValidateRequest` returns an error (body unreadable,
body not decodable, or the schema validator failing), and hands that error
back to its caller; it writes status 400 with the validation errors when the
payload violates the schema, status 400 without a body when the populated
payload does not marshal, status 500 when `ProcessAlert` fails, and status
200 with the confirmation text when everything succeeds.  All this for a
content length and a channel size that `make` accepts: for a negative one and
for one beyond the limit of the runtime the handler panics and writes
nothing. -/
theorem handler_responses (env : Env) (cfg : Config) (now : Time) (request : HttpRequest)
    (w : World) :
    (SendAlertMessageToCloudConnector env cfg now request w).responses.length ≤ 1
    ∧ (request.ContentLength < 0 ∨ request.ContentLength > env.maxSliceLen →
        (SendAlertMessageToCloudConnector env cfg now request w).responses = []
        ∧ (SendAlertMessageToCloudConnector env cfg now request w).outcome = .panicked)
    ∧ (0 ≤ request.ContentLength → request.ContentLength ≤ env.maxSliceLen →
        ∀ e, ReadFull request.Body request.ContentLength.toNat = .error e →
          (SendAlertMessageToCloudConnector env cfg now request w).responses = []
          ∧ (SendAlertMessageToCloudConnector env cfg now request w).outcome
              = .returned (some (.wrapError .errValidation e)))
    ∧ (0 ≤ request.ContentLength → request.ContentLength ≤ env.maxSliceLen →
        ∀ body, ReadFull request.Body request.ContentLength.toNat = .ok body →
          (∀ e, unmarshalAlertMessage env body = .error e →
            (SendAlertMessageToCloudConnector env cfg now request w).responses = []
            ∧ (SendAlertMessageToCloudConnector env cfg now request w).outcome
                = .returned (some (.wrapError .errValidation e)))
          ∧ (∀ decoded, unmarshalAlertMessage env body = .ok decoded →
              (∀ e, env.validateSchemaRequest body env.alertMessageSchema = .error e →
                (SendAlertMessageToCloudConnector env cfg now request w).responses = []
                ∧ (SendAlertMessageToCloudConnector env cfg now request w).outcome
                    = .returned (some e))
              ∧ (∀ violations,
                  env.validateSchemaRequest body env.alertMessageSchema = .ok violations →
                  violations ≠ [] →
                  (SendAlertMessageToCloudConnector env cfg now request w).responses
                    = [⟨some (env.buildErrorsString violations), 400⟩])
              ∧ (env.validateSchemaRequest body env.alertMessageSchema = .ok [] →
                  (∀ e,
                    env.marshal (.alertMessage (populateAlertNotificationPayload now decoded))
                      = .error e →
                    (SendAlertMessageToCloudConnector env cfg now request w).responses
                      = [⟨none, 400⟩])
                  ∧ ∀ alertBytes,
                    env.marshal (.alertMessage (populateAlertNotificationPayload now decoded))
                      = .ok alertBytes →
                    (cfg.NotificationChanSize < 0
                        ∨ cfg.NotificationChanSize > env.maxChanSize →
                      (SendAlertMessageToCloudConnector env cfg now request w).responses = []
                      ∧ (SendAlertMessageToCloudConnector env cfg now request w).outcome
                          = .panicked)
                    ∧ (0 ≤ cfg.NotificationChanSize →
                      cfg.NotificationChanSize ≤ env.maxChanSize →
                    ((ProcessAlert env alertBytes (Chan.make cfg.NotificationChanSize.toNat) w).1
                        ≠ none →
                      (SendAlertMessageToCloudConnector env cfg now request w).responses
                        = [⟨none, 500⟩])
                    ∧ ((ProcessAlert env alertBytes (Chan.make cfg.NotificationChanSize.toNat)
                          w).1 = none →
                      (SendAlertMessageToCloudConnector env cfg now request w).responses
                        = [⟨some (.str
                            "RFID Alert Service has successfully process alertMessage to cloud connector"),
                            200⟩]
                      ∧ (SendAlertMessageToCloudConnector env cfg now request w).outcome
                          = .returned none))))) := by
  refine ⟨?_, ?_, ?_, ?_⟩
  · cases hr : readAndValidateRequest env request env.alertMessageSchema AlertMessage.zero with
    | panicked => simp [SendAlertMessageToCloudConnector, hr]
    | returned res =>
      obtain ⟨⟨vals, err⟩, payload⟩ := res
      cases err with
      | some e => simp [SendAlertMessageToCloudConnector, hr]
      | none =>
        cases vals with
        | some v => simp [SendAlertMessageToCloudConnector, hr]
        | none =>
          cases hm : env.marshal (.alertMessage (populateAlertNotificationPayload now payload)) with
          | error e => simp [SendAlertMessageToCloudConnector, hr, hm]
          | ok alertBytes =>
            by_cases hs : cfg.NotificationChanSize < 0
                ∨ cfg.NotificationChanSize > env.maxChanSize
            · simp [SendAlertMessageToCloudConnector, hr, hm, hs]
            · cases hres : ProcessAlert env alertBytes
                  (Chan.make cfg.NotificationChanSize.toNat) w with
              | mk err rest =>
                obtain ⟨ch, w2⟩ := rest
                cases err <;> simp [SendAlertMessageToCloudConnector, hr, hm, hs, hres]
  · intro hbad
    simp [SendAlertMessageToCloudConnector, readAndValidateRequest, hbad]
  · intro hlen hmax e he
    have hl : ¬ (request.ContentLength < 0 ∨ request.ContentLength > env.maxSliceLen) := by
      omega
    simp [SendAlertMessageToCloudConnector, readAndValidateRequest, hl, he]
  · intro hlen hmax body hb
    have hl : ¬ (request.ContentLength < 0 ∨ request.ContentLength > env.maxSliceLen) := by
      omega
    refine ⟨?_, ?_⟩
    · intro e he
      simp [SendAlertMessageToCloudConnector, readAndValidateRequest, hl, hb, he]
    · intro decoded hd
      refine ⟨?_, ?_, ?_⟩
      · intro e he
        simp [SendAlertMessageToCloudConnector, readAndValidateRequest, hl, hb, hd, he]
      · intro violations hv hne
        have hemp : violations.isEmpty = false := by
          cases violations with
          | nil => exact absurd rfl hne
          | cons a t => rfl
        simp [SendAlertMessageToCloudConnector, readAndValidateRequest, hl, hb, hd, hv, hemp]
      · intro hv
        refine ⟨?_, ?_⟩
        · intro e hm
          simp [SendAlertMessageToCloudConnector, readAndValidateRequest, hl, hb, hd, hv, hm]
        intro alertBytes hm
        refine ⟨?_, ?_⟩
        · intro hbad
          simp [SendAlertMessageToCloudConnector, readAndValidateRequest, hl, hb, hd, hv, hm,
            hbad]
        · intro hsize hsizemax
          have hs : ¬ (cfg.NotificationChanSize < 0
              ∨ cfg.NotificationChanSize > env.maxChanSize) := by
            omega
          refine ⟨?_, ?_⟩
          · intro hp
            cases hres : ProcessAlert env alertBytes
                (Chan.make cfg.NotificationChanSize.toNat) w with
            | mk err rest =>
              cases err with
              | none => rw [hres] at hp; exact absurd rfl hp
              | some e =>
                simp [SendAlertMessageToCloudConnector, readAndValidateRequest, hl, hb, hd, hv,
                  hm, hs, hres]
          · intro hp
            cases hres : ProcessAlert env alertBytes
                (Chan.make cfg.NotificationChanSize.toNat) w with
            | mk err rest =>
              cases err with
              | some e => rw [hres] at hp; cases hp
              | none =>
                obtain ⟨ch, w2⟩ := rest
                simp [SendAlertMessageToCloudConnector, readAndValidateRequest, hl, hb, hd, hv,
                  hm, hs, hres]

/-- C6 (amended), at concrete inputs: a request without content length (-1)
and one announcing the largest `int64` make the handler panic; an unreadable
body, a body that is not JSON and a failing validator write nothing; a schema
violation writes 400; a payload that does not marshal writes 400; a negative
channel size panics; a failing `ProcessAlert` writes 500; a valid alert writes
200. -/
theorem handler_responses_witness :
    ((SendAlertMessageToCloudConnector (sampleEnv (respondWith 200)) sampleConfig 7
          ⟨-1, docNoGateway⟩ World.empty).responses = []
      ∧ (SendAlertMessageToCloudConnector (sampleEnv (respondWith 200)) sampleConfig 7
          ⟨-1, docNoGateway⟩ World.empty).outcome = .panicked)
    ∧ ((SendAlertMessageToCloudConnector (sampleEnv (respondWith 200)) sampleConfig 7
          ⟨9223372036854775807, docNoGateway⟩ World.empty).responses = []
      ∧ (SendAlertMessageToCloudConnector (sampleEnv (respondWith 200)) sampleConfig 7
          ⟨9223372036854775807, docNoGateway⟩ World.empty).outcome = .panicked)
    ∧ ((SendAlertMessageToCloudConnector (sampleEnv (respondWith 200)) sampleConfig 7
          ⟨5, []⟩ World.empty).responses = []
      ∧ (SendAlertMessageToCloudConnector (sampleEnv (respondWith 200)) sampleConfig 7
          ⟨5, []⟩ World.empty).outcome
          = .returned (some (.wrapError .errValidation (.new "EOF"))))
    ∧ ((SendAlertMessageToCloudConnector (sampleEnv (respondWith 200)) sampleConfig 7
          ⟨1, [123]⟩ World.empty).responses = []
      ∧ (SendAlertMessageToCloudConnector (sampleEnv (respondWith 200)) sampleConfig 7
          ⟨1, [123]⟩ World.empty).outcome
          = .returned (some (.wrapError .errValidation (.new "invalid character"))))
    ∧ ((SendAlertMessageToCloudConnector envValidatorFails sampleConfig 7
          requestNoGateway World.empty).responses = []
      ∧ (SendAlertMessageToCloudConnector envValidatorFails sampleConfig 7
          requestNoGateway World.empty).outcome
          = .returned (some (.new "schema does not compile")))
    ∧ ((SendAlertMessageToCloudConnector envSchemaInvalid sampleConfig 7
          requestNoGateway World.empty).responses
          = [⟨some (.arr [.str "alert_number: is required"]), 400⟩])
    ∧ ((SendAlertMessageToCloudConnector envMarshalFails sampleConfig 7
          requestNoGateway World.empty).responses = [⟨none, 400⟩])
    ∧ ((SendAlertMessageToCloudConnector (sampleEnv (respondWith 200)) configNegativeChan 7
          requestNoGateway World.empty).responses = []
      ∧ (SendAlertMessageToCloudConnector (sampleEnv (respondWith 200)) configNegativeChan 7
          requestNoGateway World.empty).outcome = .panicked)
    ∧ ((SendAlertMessageToCloudConnector envEncodesEmpty sampleConfig 7
          requestNoGateway World.empty).responses = [⟨none, 500⟩])
    ∧ ((SendAlertMessageToCloudConnector (sampleEnv (respondWith 200)) sampleConfig 7
          requestNoGateway World.empty).responses
          = [⟨some (.str
              "RFID Alert Service has successfully process alertMessage to cloud connector"),
              200⟩]
      ∧ (SendAlertMessageToCloudConnector (sampleEnv (respondWith 200)) sampleConfig 7
          requestNoGateway World.empty).outcome = .returned none) :=
  ⟨(handler_responses (sampleEnv (respondWith 200)) sampleConfig 7 ⟨-1, docNoGateway⟩
      World.empty).2.1 (Or.inl (by decide)),
   (handler_responses (sampleEnv (respondWith 200)) sampleConfig 7
      ⟨9223372036854775807, docNoGateway⟩ World.empty).2.1 (Or.inr (by decide)),
   (handler_responses (sampleEnv (respondWith 200)) sampleConfig 7 ⟨5, []⟩ World.empty).2.2.1
      (by decide) (by decide) (.new "EOF") rfl,
   ((handler_responses (sampleEnv (respondWith 200)) sampleConfig 7 ⟨1, [123]⟩
      World.empty).2.2.2 (by decide) (by decide) [123] rfl).1 (.new "invalid character") rfl,
   (((handler_responses envValidatorFails sampleConfig 7 requestNoGateway World.empty).2.2.2
      (by decide) (by decide) docNoGateway rfl).2 ⟨0, ⟨0, .obj []⟩, .null⟩ rfl).1
      (.new "schema does not compile") rfl,
   (((handler_responses envSchemaInvalid sampleConfig 7 requestNoGateway World.empty).2.2.2
      (by decide) (by decide) docNoGateway rfl).2 ⟨0, ⟨0, .obj []⟩, .null⟩ rfl).2.1
      ["alert_number: is required"] rfl (by decide),
   ((((handler_responses envMarshalFails sampleConfig 7 requestNoGateway World.empty).2.2.2
      (by decide) (by decide) docNoGateway rfl).2 ⟨0, ⟨0, .obj []⟩, .null⟩ rfl).2.2 rfl).1
      (.new "json: unsupported type") rfl,
   (((((handler_responses (sampleEnv (respondWith 200)) configNegativeChan 7 requestNoGateway
      World.empty).2.2.2 (by decide) (by decide) docNoGateway rfl).2
      ⟨0, ⟨0, .obj []⟩, .null⟩ rfl).2.2 rfl).2 docNoGateway rfl).1 (Or.inl (by decide)),
   ((((((handler_responses envEncodesEmpty sampleConfig 7 requestNoGateway World.empty).2.2.2
      (by decide) (by decide) docNoGateway rfl).2 ⟨0, ⟨0, .obj []⟩, .null⟩ rfl).2.2 rfl).2
      docEmptyObject rfl).2 (by decide) (by decide)).1 (by decide),
   ((((((handler_responses (sampleEnv (respondWith 200)) sampleConfig 7 requestNoGateway
      World.empty).2.2.2 (by decide) (by decide) docNoGateway rfl).2
      ⟨0, ⟨0, .obj []⟩, .null⟩ rfl).2.2 rfl).2 docNoGateway rfl).2 (by decide) (by decide)).2
      rfl⟩

/-! ### Delivery: the requests made by `NotifyChannel` -/

/-- The requests recorded by `PostNotification`: one more when the data
marshals and the request can be built, none otherwise. -/
theorem PostNotification_posts (env : Env) (data : Dyn) (toURL : String) (w : World) :
    (PostNotification env data toURL w).2.posts =
      w.posts ++
        match env.marshalIndent data "" "    " with
        | .error _ => []
        | .ok mData =>
          match env.parseURL toURL with
          | some _ => []
          | none => [⟨"POST", toURL, mData, [("content-type", jsonApplication)]⟩] := by
  cases h1 : env.marshalIndent data "" "    " with
  | error e => simp [PostNotification, h1]
  | ok mData =>
    cases h2 : env.parseURL toURL with
    | some e => simp [PostNotification, NewRequest, World.logLine, h1, h2]
    | none =>
      cases h3 : env.clientDo w.posts.length
          ⟨"POST", toURL, mData, [("content-type", jsonApplication)]⟩ with
      | error e =>
        simp [PostNotification, NewRequest, clientDo, World.logLine, h1, h2, h3,
          Request.setHeader]
      | ok response =>
        by_cases h4 : response.StatusCode = 200
        · cases h5 : response.Body.readAll with
          | error e =>
            simp [PostNotification, NewRequest, clientDo, World.logLine, h1, h2, h3, h4, h5,
              Request.setHeader]
          | ok body =>
            cases h6 : response.Body.close <;>
            simp [PostNotification, NewRequest, clientDo, World.logLine, h1, h2, h3, h4, h5, h6,
              Request.setHeader]
        · simp [PostNotification, NewRequest, clientDo, World.logLine, h1, h2, h3, h4,
            Request.setHeader]

/-- One pass of the loop body of `NotifyChannel` records exactly the delivery
attempt of the notification it was given. -/
theorem notifyOne_posts (env : Env) (cfg : Config) (n : Notification) (ch : Chan) (w : World) :
    (notifyOne env cfg n ch w).posts = w.posts ++ (deliveryAttempt env cfg n).toList := by
  have hw : (if (ch.len : Int) ≥ wrapInt64 (cfg.NotificationChanSize - 10) then
      w.logLine .warn "Channel size getting full!" else w).posts = w.posts := by
    split <;> rfl
  unfold notifyOne deliveryAttempt
  simp only []
  generalize (if (ch.len : Int) ≥ wrapInt64 (cfg.NotificationChanSize - 10) then
      w.logLine .warn "Channel size getting full!" else w) = w1 at hw ⊢
  rw [← hw]
  cases hg : env.generatePayload n with
  | error e => simp [World.logLine]
  | ok generated =>
    simp only []
    have hposts := PostNotification_posts env generated.Data
      (cfg.CloudConnectorURL ++ cfg.CloudConnectorEndpoint) w1
    cases hp : PostNotification env generated.Data
        (cfg.CloudConnectorURL ++ cfg.CloudConnectorEndpoint) w1 with
    | mk res w2 =>
      rw [hp] at hposts
      obtain ⟨data, err⟩ := res
      have hgoal : (match ((data, err), w2) with
          | ((_, some _), w) => w.logLine .error "Problem sending notification for %s, %s"
          | ((_, none), w) => w).posts = w2.posts := by
        cases err <;> rfl
      rw [hgoal]
      simp only [] at hposts
      rw [hposts]
      congr 1
      cases env.marshalIndent generated.Data "" "    " with
      | error e => rfl
      | ok mData =>
        cases env.parseURL (cfg.CloudConnectorURL ++ cfg.CloudConnectorEndpoint) <;> rfl

/-- Consing onto a `filterMap`, with the head's image given as a list. -/
theorem toList_append_filterMap {α β : Type} (f : α → Option β) (a : α) (l : List α) :
    (f a).toList ++ l.filterMap f = (a :: l).filterMap f := by
  cases h : f a <;> simp [List.filterMap_cons, h]

/-- The loop of `NotifyChannel`, given one unit of fuel per queued value,
empties the channel and records the delivery attempts of the queued values in
the order of the queue: buffered values first, then the values of the blocked
senders. -/
theorem notifyLoop_posts (env : Env) (cfg : Config) :
    ∀ (fuel : Nat) (ch : Chan) (w : World), ch.buf.length + ch.sendq.length ≤ fuel →
      (notifyLoop env cfg fuel ch w).2.posts
          = w.posts ++ (ch.buf ++ ch.sendq).filterMap (deliveryAttempt env cfg)
      ∧ (notifyLoop env cfg fuel ch w).1.buf = []
      ∧ (notifyLoop env cfg fuel ch w).1.sendq = [] := by
  intro fuel
  induction fuel with
  | zero =>
    intro ch w h
    obtain ⟨cap, buf, sendq, spawned⟩ := ch
    have hboth : buf = [] ∧ sendq = [] := by simpa using h
    obtain ⟨hb, hs⟩ := hboth
    subst hb hs
    simp [notifyLoop]
  | succ fuel ih =>
    intro ch w h
    obtain ⟨cap, buf, sendq, spawned⟩ := ch
    cases buf with
    | nil =>
      cases sendq with
      | nil => simp [notifyLoop, Chan.recv]
      | cons s waiting =>
        have hlen : (Chan.mk cap [] waiting spawned).buf.length + (Chan.mk cap [] waiting spawned).sendq.length
            ≤ fuel := by simp at h ⊢; omega
        obtain ⟨h1, h2, h3⟩ := ih ⟨cap, [], waiting, spawned⟩
          (notifyOne env cfg s ⟨cap, [], waiting, spawned⟩ w) hlen
        simp only [notifyLoop, Chan.recv]
        refine ⟨?_, h2, h3⟩
        rw [h1, notifyOne_posts, List.append_assoc]
        simp only [List.nil_append]
        rw [toList_append_filterMap]
    | cons n rest =>
      cases sendq with
      | nil =>
        have hlen : (Chan.mk cap rest [] spawned).buf.length + (Chan.mk cap rest [] spawned).sendq.length
            ≤ fuel := by simp at h ⊢; omega
        obtain ⟨h1, h2, h3⟩ := ih ⟨cap, rest, [], spawned⟩ (notifyOne env cfg n ⟨cap, rest, [], spawned⟩ w) hlen
        simp only [notifyLoop, Chan.recv]
        refine ⟨?_, h2, h3⟩
        rw [h1, notifyOne_posts, List.append_assoc]
        simp only [List.append_nil]
        rw [toList_append_filterMap]
      | cons s waiting =>
        have hlen : (Chan.mk cap (rest ++ [s]) waiting spawned).buf.length
            + (Chan.mk cap (rest ++ [s]) waiting spawned).sendq.length ≤ fuel := by
          simp at h ⊢; omega
        obtain ⟨h1, h2, h3⟩ := ih ⟨cap, rest ++ [s], waiting, spawned⟩
          (notifyOne env cfg n ⟨cap, rest ++ [s], waiting, spawned⟩ w) hlen
        simp only [notifyLoop, Chan.recv]
        refine ⟨?_, h2, h3⟩
        rw [h1, notifyOne_posts, List.append_assoc]
        have hq : (rest ++ [s]) ++ waiting = rest ++ s :: waiting := by simp
        simp only [hq]
        rw [toList_append_filterMap]
        rfl

/-- C8: whatever the endpoint answers to each attempt (`outcomes`), the POST
attempts made by `NotifyChannel` on a queue are the delivery attempts of the
queued notifications, in queue order and one at most per notification; a
failed attempt neither stops the loop nor skips a later notification, and the
whole queue is consumed. -/
theorem NotifyChannel_fifo (env : Env) (cfg : Config) (ch : Chan) (w : World)
    (outcomes : Nat → Request → Except GoError Response) :
    (NotifyChannel { env with clientDo := outcomes } cfg ch w).2.posts
        = w.posts ++ (ch.buf ++ ch.sendq).filterMap (deliveryAttempt env cfg)
    ∧ (NotifyChannel { env with clientDo := outcomes } cfg ch w).2.posts.length
        ≤ w.posts.length + (ch.buf ++ ch.sendq).length
    ∧ (NotifyChannel { env with clientDo := outcomes } cfg ch w).1.buf = []
    ∧ (NotifyChannel { env with clientDo := outcomes } cfg ch w).1.sendq = [] := by
  obtain ⟨h1, h2, h3⟩ := notifyLoop_posts { env with clientDo := outcomes } cfg
    (ch.buf.length + ch.sendq.length) ch w (le_refl _)
  have hsame : deliveryAttempt { env with clientDo := outcomes } cfg = deliveryAttempt env cfg :=
    rfl
  rw [hsame] at h1
  refine ⟨h1, ?_, h2, h3⟩
  unfold NotifyChannel
  rw [h1, List.length_append]
  exact Nat.add_le_add_left (List.length_filterMap_le _ _) _

/-- `NotifyChannel` on a channel from which `n` can be received runs the loop
body on `n` and goes on with the rest of the channel. -/
theorem NotifyChannel_step (env : Env) (cfg : Config) (ch rest : Chan) (n : Notification)
    (w : World) (h : ch.recv = some (n, rest)) :
    NotifyChannel env cfg ch w = NotifyChannel env cfg rest (notifyOne env cfg n rest w) := by
  obtain ⟨cap, buf, sendq, spawned⟩ := ch
  cases buf with
  | nil =>
    cases sendq with
    | nil => simp [Chan.recv] at h
    | cons s waiting =>
      simp only [Chan.recv, Option.some.injEq, Prod.mk.injEq] at h
      obtain ⟨rfl, rfl⟩ := h
      simp [NotifyChannel, notifyLoop, Chan.recv]
  | cons m more =>
    cases sendq with
    | nil =>
      simp only [Chan.recv, Option.some.injEq, Prod.mk.injEq] at h
      obtain ⟨rfl, rfl⟩ := h
      simp [NotifyChannel, notifyLoop, Chan.recv]
    | cons s waiting =>
      simp only [Chan.recv, Option.some.injEq, Prod.mk.injEq] at h
      obtain ⟨rfl, rfl⟩ := h
      have hfuel : (m :: more).length.add waiting.length
          = (more ++ [s]).length + waiting.length := by
        show (m :: more).length + waiting.length = _
        simp
      simp only [NotifyChannel, notifyLoop, Chan.recv]
      rw [hfuel]

/-- C7 (counterexample): a queued notification whose payload cannot be
generated, and a queued notification under a cloud connector address that does
not parse, are both taken from the queue without any POST attempt. -/
theorem NotifyChannel_no_attempt :
    ((NotifyChannel envPayloadFails sampleConfig ⟨20, [sampleNotification], [], []⟩
          World.empty).2.posts = []
      ∧ (NotifyChannel envPayloadFails sampleConfig ⟨20, [sampleNotification], [], []⟩
          World.empty).1.buf = [])
    ∧ ((NotifyChannel (sampleEnv (respondWith 200)) configBadURL ⟨20, [sampleNotification], [], []⟩
          World.empty).2.posts = []
      ∧ (NotifyChannel (sampleEnv (respondWith 200)) configBadURL
          ⟨20, [sampleNotification], [], []⟩ World.empty).1.buf = []) := by
  refine ⟨⟨?_, ?_⟩, ?_, ?_⟩ <;> rfl

/-- C7 (amended): for a notification `n` taken from the queue, `NotifyChannel`
runs its loop body on `n` and makes at most one POST attempt there.  It makes none when `GeneratePayload` fails,
when the generated payload does not marshal, or when the request cannot be
built; otherwise it makes exactly one, to
`CloudConnectorURL + CloudConnectorEndpoint`, with content type
`application/json;charset=utf-8`, whose body is the `json.MarshalIndent`
encoding of the notification's `Data` as `GeneratePayload` left it. -/
theorem notifyOne_attempt (env : Env) (cfg : Config) (n : Notification) (ch : Chan)
    (w : World) :
    (∀ queue : Chan, queue.recv = some (n, ch) →
        NotifyChannel env cfg queue w = NotifyChannel env cfg ch (notifyOne env cfg n ch w))
    ∧ (∃ attempts, (notifyOne env cfg n ch w).posts = w.posts ++ attempts ∧ attempts.length ≤ 1)
    ∧ (∀ e, env.generatePayload n = .error e → (notifyOne env cfg n ch w).posts = w.posts)
    ∧ (∀ generated, env.generatePayload n = .ok generated →
        (∀ e, env.marshalIndent generated.Data "" "    " = .error e →
          (notifyOne env cfg n ch w).posts = w.posts)
        ∧ (∀ mData, env.marshalIndent generated.Data "" "    " = .ok mData →
            (∀ e, env.parseURL (cfg.CloudConnectorURL ++ cfg.CloudConnectorEndpoint) = some e →
              (notifyOne env cfg n ch w).posts = w.posts)
            ∧ (env.parseURL (cfg.CloudConnectorURL ++ cfg.CloudConnectorEndpoint) = none →
              (notifyOne env cfg n ch w).posts
                = w.posts ++ [⟨"POST", cfg.CloudConnectorURL ++ cfg.CloudConnectorEndpoint,
                    mData, [("content-type", "application/json;charset=utf-8")]⟩]))) := by
  refine ⟨fun queue h => NotifyChannel_step env cfg queue ch n w h, ?_⟩
  rw [notifyOne_posts]
  refine ⟨⟨_, rfl, ?_⟩, ?_, ?_⟩
  · cases deliveryAttempt env cfg n <;> simp
  · intro e h
    simp [deliveryAttempt, h]
  · intro generated hg
    refine ⟨?_, ?_⟩
    · intro e h
      simp [deliveryAttempt, hg, h]
    · intro mData hm
      refine ⟨?_, ?_⟩
      · intro e h
        simp [deliveryAttempt, hg, hm, h]
      · intro h
        simp [deliveryAttempt, hg, hm, h, jsonApplication]

/-- C7 (amended), at concrete inputs: a failing payload generation, data that
do not marshal and an address that does not parse give no attempt; otherwise
the one attempt carries the marshalled payload. -/
theorem notifyOne_attempt_witness :
    NotifyChannel envPayloadFails sampleConfig ⟨20, [sampleNotification], [], []⟩ World.empty
        = NotifyChannel envPayloadFails sampleConfig (Chan.make 20)
            (notifyOne envPayloadFails sampleConfig sampleNotification (Chan.make 20) World.empty)
    ∧ (notifyOne envPayloadFails sampleConfig sampleNotification (Chan.make 20) World.empty).posts
        = World.empty.posts
    ∧ (notifyOne (sampleEnv (respondWith 200)) sampleConfig unencodableNotification
        (Chan.make 20) World.empty).posts = World.empty.posts
    ∧ (notifyOne (sampleEnv (respondWith 200)) configBadURL sampleNotification (Chan.make 20)
        World.empty).posts = World.empty.posts
    ∧ (notifyOne (sampleEnv (respondWith 400)) sampleConfig sampleNotification (Chan.make 20)
        World.empty).posts
        = World.empty.posts ++ [⟨"POST", "http://cloud-connector:8080" ++ "/callwebhook",
            docEmptyObject, [("content-type", "application/json;charset=utf-8")]⟩] :=
  ⟨(notifyOne_attempt envPayloadFails sampleConfig sampleNotification (Chan.make 20)
      World.empty).1 ⟨20, [sampleNotification], [], []⟩ rfl,
   (notifyOne_attempt envPayloadFails sampleConfig sampleNotification (Chan.make 20)
      World.empty).2.2.1 (.new "cannot generate payload") rfl,
   ((notifyOne_attempt (sampleEnv (respondWith 200)) sampleConfig unencodableNotification
      (Chan.make 20) World.empty).2.2.2 unencodableNotification rfl).1
      (.new "json: unsupported type") rfl,
   (((notifyOne_attempt (sampleEnv (respondWith 200)) configBadURL sampleNotification
      (Chan.make 20) World.empty).2.2.2 sampleNotification rfl).2 docEmptyObject rfl).1
      (.new "parse: missing protocol scheme") rfl,
   (((notifyOne_attempt (sampleEnv (respondWith 400)) sampleConfig sampleNotification
      (Chan.make 20) World.empty).2.2.2 sampleNotification rfl).2 docEmptyObject rfl).2 rfl⟩

/-! ### The warning about a channel getting full -/

/-- `PostNotification` logs at debug and info level only. -/
theorem PostNotification_log_warn (env : Env) (data : Dyn) (toURL : String) (w : World) :
    (⟨.warn, "Channel size getting full!"⟩ : LogEntry) ∈ (PostNotification env data toURL w).2.log
      ↔ (⟨.warn, "Channel size getting full!"⟩ : LogEntry) ∈ w.log := by
  cases h1 : env.marshalIndent data "" "    " with
  | error e => simp [PostNotification, h1]
  | ok mData =>
    cases h2 : env.parseURL toURL with
    | some e => simp [PostNotification, NewRequest, World.logLine, h1, h2]
    | none =>
      cases h3 : env.clientDo w.posts.length
          ⟨"POST", toURL, mData, [("content-type", jsonApplication)]⟩ with
      | error e =>
        simp [PostNotification, NewRequest, clientDo, World.logLine, h1, h2, h3,
          Request.setHeader]
      | ok response =>
        by_cases h4 : response.StatusCode = 200
        · cases h5 : response.Body.readAll with
          | error e =>
            simp [PostNotification, NewRequest, clientDo, World.logLine, h1, h2, h3, h4, h5,
              Request.setHeader]
          | ok body =>
            cases h6 : response.Body.close <;>
            simp [PostNotification, NewRequest, clientDo, World.logLine, h1, h2, h3, h4, h5, h6,
              Request.setHeader]
        · simp [PostNotification, NewRequest, clientDo, World.logLine, h1, h2, h3, h4,
            Request.setHeader]

/-- `ProcessAlert` never logs the warning about the channel getting full. -/
theorem ProcessAlert_log_warn (env : Env) (jsonBytes : Bytes) (ch : Chan) (w : World) :
    (⟨.warn, "Channel size getting full!"⟩ : LogEntry) ∈ (ProcessAlert env jsonBytes ch w).2.2.log
      ↔ (⟨.warn, "Channel size getting full!"⟩ : LogEntry) ∈ w.log := by
  unfold ProcessAlert
  simp only []
  cases h1 : unmarshalMap env jsonBytes with
  | error e => simp [World.logLine]
  | ok data =>
    simp only []
    cases h2 : mapIndex data "value" with
    | none => simp [World.logLine]
    | some j =>
      cases j with
      | obj value =>
        simp only []
        cases h3 : unmarshalAlertMessage env jsonBytes with
        | error e =>
          cases h4 : Json.member "gateway_id" value with
          | none => simp [World.logLine]
          | some g => cases g <;> simp [World.logLine]
        | ok alertEvent =>
          cases h4 : Json.member "gateway_id" value with
          | none => simp [World.logLine]
          | some g => cases g <;> simp [World.logLine]
      | null => simp [World.logLine]
      | bool b => simp [World.logLine]
      | num l => simp [World.logLine]
      | str t => simp [World.logLine]
      | arr items => simp [World.logLine]

/-- The loop body of `NotifyChannel` logs the warning exactly when the number
of notifications left in the channel after the receive is at least
`NotificationChanSize - 10`. -/
theorem notifyOne_log_warn (env : Env) (cfg : Config) (n : Notification) (ch : Chan)
    (w : World) (hw : (⟨.warn, "Channel size getting full!"⟩ : LogEntry) ∉ w.log) :
    (⟨.warn, "Channel size getting full!"⟩ : LogEntry) ∈ (notifyOne env cfg n ch w).log
      ↔ (ch.len : Int) ≥ wrapInt64 (cfg.NotificationChanSize - 10) := by
  have hw1 : (⟨.warn, "Channel size getting full!"⟩ : LogEntry) ∈
      (if (ch.len : Int) ≥ wrapInt64 (cfg.NotificationChanSize - 10) then
        w.logLine .warn "Channel size getting full!" else w).log
      ↔ (ch.len : Int) ≥ wrapInt64 (cfg.NotificationChanSize - 10) := by
    by_cases hc : (ch.len : Int) ≥ wrapInt64 (cfg.NotificationChanSize - 10)
    · simp [hc, World.logLine]
    · simp [hc, hw]
  unfold notifyOne
  simp only []
  generalize (if (ch.len : Int) ≥ wrapInt64 (cfg.NotificationChanSize - 10) then
      w.logLine .warn "Channel size getting full!" else w) = w1 at hw1 ⊢
  rw [← hw1]
  cases hg : env.generatePayload n with
  | error e => simp [World.logLine]
  | ok generated =>
    simp only []
    have hlog := PostNotification_log_warn env generated.Data
      (cfg.CloudConnectorURL ++ cfg.CloudConnectorEndpoint) w1
    cases hp : PostNotification env generated.Data
        (cfg.CloudConnectorURL ++ cfg.CloudConnectorEndpoint) w1 with
    | mk res w2 =>
      rw [hp] at hlog
      obtain ⟨data, err⟩ := res
      rw [← hlog]
      cases err <;> simp [World.logLine]

/-! ### The dispatcher and items that do not serialize -/

/-- When the serialization of a heartbeat item fails, the dispatcher logs the
failure and then calls `processHeartbeat` on empty bytes. -/
theorem initSensingStep_heartbeat_unserializable (env : Env) (cfg : Config)
    (item : ProviderItem) (w : World) (e : GoError)
    (h : env.marshalIndent (.item item) "" "  " = .error e) :
    initSensingStep env cfg (.heartbeat item) w =
      match processHeartbeat env cfg [] (w.logLine .error "Unable to process heartbeat") with
      | (.panicked, w) => (.panicked, w)
      | (.returned (some _), w) => (.running, w.logLine .error "error processing heartbeat data")
      | (.returned none, w) => (.running, w) := by
  simp [initSensingStep, marshalItem, h]

/-- C10 (evaluation at the failing input): for a heartbeat, an event and an
alert item that do not serialize, the dispatcher logs the failure, still
invokes the handler, and the handler POSTs the encoding of the empty string
to its destination. -/
theorem dispatcher_relays_unserializable_item :
    ((initSensingStep (sampleEnv (respondWith 200)) sampleConfig (.heartbeat unencodableItem)
          World.empty).2.log
        = [⟨.error, "Unable to process heartbeat"⟩, ⟨.info, "Received Heartbeat:\n%s"⟩,
            ⟨.info, "Sent Heartbeat to %s"⟩]
      ∧ (initSensingStep (sampleEnv (respondWith 200)) sampleConfig (.heartbeat unencodableItem)
          World.empty).2.posts.map (fun r => (r.url, r.body))
        = [("http://destination/heartbeat", [34, 34])])
    ∧ ((initSensingStep (sampleEnv (respondWith 200)) sampleConfig (.event unencodableItem)
          World.empty).2.log
        = [⟨.error, "Unable to process event"⟩, ⟨.info, "Received event:\n%s"⟩,
            ⟨.info, "Sent event to %s"⟩]
      ∧ (initSensingStep (sampleEnv (respondWith 200)) sampleConfig (.event unencodableItem)
          World.empty).2.posts.map (fun r => (r.url, r.body))
        = [("http://destination/event", [34, 34])])
    ∧ ((initSensingStep (sampleEnv (respondWith 200)) sampleConfig (.alert unencodableItem)
          World.empty).2.log
        = [⟨.error, "Unable to process alert"⟩, ⟨.info, "Received alert:\n%s"⟩,
            ⟨.info, "Sent alert to %s"⟩]
      ∧ (initSensingStep (sampleEnv (respondWith 200)) sampleConfig (.alert unencodableItem)
          World.empty).2.posts.map (fun r => (r.url, r.body))
        = [("http://destination/alert", [34, 34])]) := by
  refine ⟨⟨?_, ?_⟩, ⟨?_, ?_⟩, ?_, ?_⟩ <;> rfl

/-! ### The timestamp of an inbound alert -/

/-- C11: `populateAlertNotificationPayload` stamps the payload with the clock
reading taken at processing: two payloads that differ only in the `Datetime`
supplied by the caller give the same result under the same clock reading, and
the `Datetime` of every result is that clock reading. -/
theorem populate_datetime_is_clock (now : Time) :
    (∀ (supplied other : Time) (value : Alert) (rest : Json),
        populateAlertNotificationPayload now ⟨supplied, value, rest⟩
          = populateAlertNotificationPayload now ⟨other, value, rest⟩)
    ∧ (∀ p : AlertMessage, (populateAlertNotificationPayload now p).Datetime = now)
    ∧ (∀ p : AlertMessage, (populateAlertNotificationPayload now p).other = p.other
        ∧ (populateAlertNotificationPayload now p).Value.other = p.Value.other) := by
  refine ⟨?_, ?_, ?_⟩
  · intro supplied other value rest
    unfold populateAlertNotificationPayload
    by_cases h : value.AlertNumber = 0 <;> simp [h]
  · intro p
    unfold populateAlertNotificationPayload
    by_cases h : p.Value.AlertNumber = 0 <;> simp [h]
  · intro p
    unfold populateAlertNotificationPayload
    by_cases h : p.Value.AlertNumber = 0 <;> simp [h]

/-! ### Routing of the three payload classes -/

/-- The requests recorded by `postNotification` of main.go: one more, to the
given address, when the data marshals and the request can be built; none
otherwise. -/
theorem postNotification_posts (env : Env) (data : Dyn) (toURL : String) (w : World) :
    (postNotification env data toURL w).2.posts =
      w.posts ++
        match env.marshal data with
        | .error _ => []
        | .ok mData =>
          match env.parseURL toURL with
          | some _ => []
          | none => [⟨"POST", toURL, mData, [("content-type", jsonApplication)]⟩] := by
  cases h1 : env.marshal data with
  | error e => simp [postNotification, h1]
  | ok mData =>
    cases h2 : env.parseURL toURL with
    | some e => simp [postNotification, NewRequest, h1, h2]
    | none =>
      cases h3 : env.clientDo w.posts.length
          ⟨"POST", toURL, mData, [("content-type", jsonApplication)]⟩ with
      | error e =>
        simp [postNotification, NewRequest, clientDo, h1, h2, h3, Request.setHeader]
      | ok response =>
        by_cases h4 : response.StatusCode = 200
        · cases h6 : response.Body.close <;>
          simp [postNotification, NewRequest, clientDo, World.logLine, h1, h2, h3, h4, h6,
            Request.setHeader]
        · simp [postNotification, NewRequest, clientDo, h1, h2, h3, h4, Request.setHeader]

/-- Each of the three handlers records exactly what its one call of
`postNotification` records. -/
theorem handlers_posts (env : Env) (cfg : Config) (jsonBytes : Bytes) (w : World) :
    (processHeartbeat env cfg jsonBytes w).2.posts
        = (postNotification env (.text jsonBytes) cfg.SendHeartbeatTo
            (w.logLine .info "Received Heartbeat:\n%s")).2.posts
    ∧ (processEvent env cfg jsonBytes w).2.posts
        = (postNotification env (.text jsonBytes) cfg.SendEventTo
            (w.logLine .info "Received event:\n%s")).2.posts
    ∧ (processAlert env cfg jsonBytes w).2.posts
        = (postNotification env (.text jsonBytes) cfg.SendAlertTo
            (w.logLine .info "Received alert:\n%s")).2.posts := by
  refine ⟨?_, ?_, ?_⟩
  · unfold processHeartbeat
    simp only []
    cases postNotification env (.text jsonBytes) cfg.SendHeartbeatTo
        (w.logLine .info "Received Heartbeat:\n%s") with
    | mk out w2 =>
      cases out with
      | panicked => rfl
      | returned err => cases err <;> rfl
  · unfold processEvent
    simp only []
    cases postNotification env (.text jsonBytes) cfg.SendEventTo
        (w.logLine .info "Received event:\n%s") with
    | mk out w2 =>
      cases out with
      | panicked => rfl
      | returned err => cases err <;> rfl
  · unfold processAlert
    simp only []
    cases postNotification env (.text jsonBytes) cfg.SendAlertTo
        (w.logLine .info "Received alert:\n%s") with
    | mk out w2 =>
      cases out with
      | panicked => rfl
      | returned err => cases err <;> rfl

/-- C12: every class of payload goes to its own destination and to no other.
`processHeartbeat` records at most one POST, addressed to `SendHeartbeatTo`;
`processEvent` at most one, to `SendEventTo`; `processAlert` at most one, to
`SendAlertTo`; and an iteration of the dispatcher on a heartbeat, event or
alert item records exactly what the handler of that class records for the
serialized item. -/
theorem relay_routing (env : Env) (cfg : Config) (jsonBytes : Bytes) (item : ProviderItem)
    (w : World) :
    ((processHeartbeat env cfg jsonBytes w).2.posts
        = w.posts ++ relayAttempt env jsonBytes cfg.SendHeartbeatTo
      ∧ (processEvent env cfg jsonBytes w).2.posts
        = w.posts ++ relayAttempt env jsonBytes cfg.SendEventTo
      ∧ (processAlert env cfg jsonBytes w).2.posts
        = w.posts ++ relayAttempt env jsonBytes cfg.SendAlertTo)
    ∧ ((initSensingStep env cfg (.heartbeat item) w).2.posts
        = w.posts ++ relayAttempt env
            (marshalItem env item "Unable to process heartbeat" w).1 cfg.SendHeartbeatTo
      ∧ (initSensingStep env cfg (.event item) w).2.posts
        = w.posts ++ relayAttempt env
            (marshalItem env item "Unable to process event" w).1 cfg.SendEventTo
      ∧ (initSensingStep env cfg (.alert item) w).2.posts
        = w.posts ++ relayAttempt env
            (marshalItem env item "Unable to process alert" w).1 cfg.SendAlertTo)
    ∧ (∀ (text : Bytes) (destination : String),
        relayAttempt env text destination = []
        ∨ ∃ body, relayAttempt env text destination
            = [⟨"POST", destination, body, [("content-type", "application/json;charset=utf-8")]⟩]) := by
  have hp := handlers_posts env cfg
  have hm : ∀ failure, (marshalItem env item failure w).2.posts = w.posts := by
    intro failure
    unfold marshalItem
    cases env.marshalIndent (.item item) "" "  " <;> rfl
  refine ⟨⟨?_, ?_, ?_⟩, ⟨?_, ?_, ?_⟩, ?_⟩
  · rw [(hp jsonBytes w).1, postNotification_posts]; rfl
  · rw [(hp jsonBytes w).2.1, postNotification_posts]; rfl
  · rw [(hp jsonBytes w).2.2, postNotification_posts]; rfl
  · have h := (hp (marshalItem env item "Unable to process heartbeat" w).1
        (marshalItem env item "Unable to process heartbeat" w).2).1
    rw [postNotification_posts] at h
    rw [← hm "Unable to process heartbeat"]
    simp only [initSensingStep]
    cases hr : processHeartbeat env cfg (marshalItem env item "Unable to process heartbeat" w).1
        (marshalItem env item "Unable to process heartbeat" w).2 with
    | mk out w2 =>
      rw [hr] at h
      cases out with
      | panicked => exact h
      | returned err => cases err <;> exact h
  · have h := (hp (marshalItem env item "Unable to process event" w).1
        (marshalItem env item "Unable to process event" w).2).2.1
    rw [postNotification_posts] at h
    rw [← hm "Unable to process event"]
    simp only [initSensingStep]
    cases hr : processEvent env cfg (marshalItem env item "Unable to process event" w).1
        (marshalItem env item "Unable to process event" w).2 with
    | mk out w2 =>
      rw [hr] at h
      cases out with
      | panicked => exact h
      | returned err => cases err <;> exact h
  · have h := (hp (marshalItem env item "Unable to process alert" w).1
        (marshalItem env item "Unable to process alert" w).2).2.2
    rw [postNotification_posts] at h
    rw [← hm "Unable to process alert"]
    simp only [initSensingStep]
    cases hr : processAlert env cfg (marshalItem env item "Unable to process alert" w).1
        (marshalItem env item "Unable to process alert" w).2 with
    | mk out w2 =>
      rw [hr] at h
      cases out with
      | panicked => exact h
      | returned err => cases err <;> exact h
  · intro text destination
    unfold relayAttempt
    cases env.marshal (.text text) with
    | error e => exact Or.inl rfl
    | ok mData =>
      cases env.parseURL destination with
      | some e => exact Or.inl rfl
      | none => exact Or.inr ⟨mData, rfl⟩

/-! ### What `ProcessAlert` puts on the channel -/

/-- Every run of `ProcessAlert` is of one of two kinds: the input is an object
with an object under `value` that decodes as an alert message, nil is returned
and one goroutine is started to send one notification; or an error is returned
and the channel, its started goroutines included, is left as it was. -/
theorem ProcessAlert_cases (env : Env) (jsonBytes : Bytes) (ch : Chan) (w : World) :
    (∃ members value alertEvent,
        env.unmarshal jsonBytes = .ok (.obj members)
        ∧ Json.member "value" members = some (.obj value)
        ∧ env.decodeAlertMessage (.obj members) = .ok alertEvent
        ∧ (ProcessAlert env jsonBytes ch w).1 = none
        ∧ (ProcessAlert env jsonBytes ch w).2.1
            = { ch with spawned := ch.spawned ++
                  [⟨"Process Alert", "Alert", .alert alertEvent.Value,
                    match Json.member "gateway_id" value with
                    | some (.str s) => s
                    | _ => ""⟩] })
    ∨ ((ProcessAlert env jsonBytes ch w).1 ≠ none ∧ (ProcessAlert env jsonBytes ch w).2.1 = ch) := by
  cases h1 : env.unmarshal jsonBytes with
  | error e => exact Or.inr (by simp [ProcessAlert, unmarshalMap, h1])
  | ok doc =>
    cases doc with
    | null => exact Or.inr (by simp [ProcessAlert, unmarshalMap, mapIndex, h1])
    | bool b => exact Or.inr (by simp [ProcessAlert, unmarshalMap, h1])
    | num l => exact Or.inr (by simp [ProcessAlert, unmarshalMap, h1])
    | str t => exact Or.inr (by simp [ProcessAlert, unmarshalMap, h1])
    | arr items => exact Or.inr (by simp [ProcessAlert, unmarshalMap, h1])
    | obj members =>
      cases h2 : Json.member "value" members with
      | none => exact Or.inr (by simp [ProcessAlert, unmarshalMap, mapIndex, h1, h2])
      | some j =>
        cases j with
        | null => exact Or.inr (by simp [ProcessAlert, unmarshalMap, mapIndex, h1, h2])
        | bool b => exact Or.inr (by simp [ProcessAlert, unmarshalMap, mapIndex, h1, h2])
        | num l => exact Or.inr (by simp [ProcessAlert, unmarshalMap, mapIndex, h1, h2])
        | str t => exact Or.inr (by simp [ProcessAlert, unmarshalMap, mapIndex, h1, h2])
        | arr items => exact Or.inr (by simp [ProcessAlert, unmarshalMap, mapIndex, h1, h2])
        | obj value =>
          cases h3 : env.decodeAlertMessage (.obj members) with
          | error e =>
            refine Or.inr ?_
            cases hg : Json.member "gateway_id" value with
            | none =>
              simp [ProcessAlert, unmarshalMap, unmarshalAlertMessage, mapIndex, h1, h2, h3, hg]
            | some g =>
              cases g <;>
              simp [ProcessAlert, unmarshalMap, unmarshalAlertMessage, mapIndex, h1, h2, h3, hg]
          | ok alertEvent =>
            refine Or.inl ⟨members, value, alertEvent, rfl, h2, h3, ?_, ?_⟩
            · cases hg : Json.member "gateway_id" value with
              | none =>
                simp [ProcessAlert, unmarshalMap, unmarshalAlertMessage, mapIndex, h1, h2, h3, hg]
              | some g =>
                cases g <;>
                simp [ProcessAlert, unmarshalMap, unmarshalAlertMessage, mapIndex, h1, h2, h3, hg]
            · cases hg : Json.member "gateway_id" value with
              | none =>
                simp [ProcessAlert, unmarshalMap, unmarshalAlertMessage, mapIndex, h1, h2, h3, hg,
                  AlertType, Chan.spawnSend]
              | some g =>
                cases g <;>
                simp [ProcessAlert, unmarshalMap, unmarshalAlertMessage, mapIndex, h1, h2, h3, hg,
                  AlertType, Chan.spawnSend]

/-- Running the goroutine that was started last. -/
theorem runSpawned_last (ch : Chan) (n : Notification) :
    (Chan.runSpawned { ch with spawned := ch.spawned ++ [n] } ch.spawned.length)
      = Chan.send ch n := by
  have hget : (ch.spawned ++ [n]).get? ch.spawned.length = some n := by
    simp
  have herase : (ch.spawned ++ [n]).eraseIdx ch.spawned.length = ch.spawned := by
    rw [List.eraseIdx_append_of_length_le (le_refl _)]
    simp
  simp only [Chan.runSpawned, hget, herase]

/-- C15: whenever `alert.ProcessAlert` returns nil, the input is an object
whose `value` is an object and which decodes as an alert message, and exactly
one goroutine was started, to send one notification: its message is
`Process Alert`, its type `Alert`, its data the `Value` of the decoded
message, and its gateway id the string under `value.gateway_id` (the empty
string when there is none).  `ProcessAlert` itself leaves the buffer and the
blocked senders of the channel alone.  When the goroutine is run, right away
or at any later state of the channel, the notification lands at the end of the
buffer if there is room and at the end of the blocked senders otherwise. -/
theorem ProcessAlert_sends_one (env : Env) (jsonBytes : Bytes) (ch : Chan) (w : World)
    (h : (ProcessAlert env jsonBytes ch w).1 = none) :
    (∃ members value alertEvent,
      env.unmarshal jsonBytes = .ok (.obj members)
      ∧ Json.member "value" members = some (.obj value)
      ∧ env.decodeAlertMessage (.obj members) = .ok alertEvent
      ∧ (ProcessAlert env jsonBytes ch w).2.1
          = { ch with spawned := ch.spawned ++
                [⟨"Process Alert", "Alert", .alert alertEvent.Value,
                  match Json.member "gateway_id" value with
                  | some (.str s) => s
                  | _ => ""⟩] }
      ∧ ((ProcessAlert env jsonBytes ch w).2.1.runSpawned ch.spawned.length
          = if ch.buf.length < ch.cap then
              { ch with buf := ch.buf ++
                  [⟨"Process Alert", "Alert", .alert alertEvent.Value,
                    match Json.member "gateway_id" value with
                    | some (.str s) => s
                    | _ => ""⟩] }
            else
              { ch with sendq := ch.sendq ++
                  [⟨"Process Alert", "Alert", .alert alertEvent.Value,
                    match Json.member "gateway_id" value with
                    | some (.str s) => s
                    | _ => ""⟩] }))
    ∧ ((ProcessAlert env jsonBytes ch w).2.1.buf = ch.buf
      ∧ (ProcessAlert env jsonBytes ch w).2.1.sendq = ch.sendq
      ∧ (ProcessAlert env jsonBytes ch w).2.1.spawned.length = ch.spawned.length + 1)
    ∧ (∀ (c : Chan) (i : Nat) (n : Notification), c.spawned.get? i = some n →
        (c.buf.length < c.cap →
          (c.runSpawned i).buf = c.buf ++ [n] ∧ (c.runSpawned i).sendq = c.sendq)
        ∧ (c.cap ≤ c.buf.length →
          (c.runSpawned i).buf = c.buf ∧ (c.runSpawned i).sendq = c.sendq ++ [n])
        ∧ (c.runSpawned i).spawned = c.spawned.eraseIdx i) := by
  rcases ProcessAlert_cases env jsonBytes ch w with
    ⟨members, value, alertEvent, h1, h2, h3, _, h5⟩ | ⟨hne, _⟩
  · refine ⟨⟨members, value, alertEvent, h1, h2, h3, h5, ?_⟩, ?_, ?_⟩
    · rw [h5, runSpawned_last]
      rfl
    · rw [h5]
      simp
    · intro c i n hc
      have hl := runSpawned_lands c i n hc
      exact ⟨hl.1, hl.2.1, hl.2.2.1⟩
  · exact absurd h hne

/-- C15, at concrete inputs: the document `{"value":{"gateway_id":"g"}}` met
with an empty channel of 20 slots, whose goroutine leaves the notification in
the buffer, and a goroutine run on a full channel. -/
theorem ProcessAlert_sends_one_witness :
    (ProcessAlert (sampleEnv (respondWith 200)) docWithGateway (Chan.make 20) World.empty).1 = none
    ∧ ((ProcessAlert (sampleEnv (respondWith 200)) docWithGateway (Chan.make 20)
          World.empty).2.1.buf = (Chan.make 20).buf
      ∧ (ProcessAlert (sampleEnv (respondWith 200)) docWithGateway (Chan.make 20)
          World.empty).2.1.sendq = (Chan.make 20).sendq
      ∧ (ProcessAlert (sampleEnv (respondWith 200)) docWithGateway (Chan.make 20)
          World.empty).2.1.spawned.length = (Chan.make 20).spawned.length + 1)
    ∧ ((chanFullOneSpawned.runSpawned 0).buf = chanFullOneSpawned.buf
      ∧ (chanFullOneSpawned.runSpawned 0).sendq
          = chanFullOneSpawned.sendq ++ [sampleNotification])
    ∧ (((ProcessAlert (sampleEnv (respondWith 200)) docWithGateway (Chan.make 20)
          World.empty).2.1.runSpawned 0).buf
        = (ProcessAlert (sampleEnv (respondWith 200)) docWithGateway (Chan.make 20)
            World.empty).2.1.buf
          ++ [⟨"Process Alert", "Alert", .alert ⟨0, .obj [("gateway_id", .str "g")]⟩, "g"⟩]
      ∧ ((ProcessAlert (sampleEnv (respondWith 200)) docWithGateway (Chan.make 20)
          World.empty).2.1.runSpawned 0).sendq
        = (ProcessAlert (sampleEnv (respondWith 200)) docWithGateway (Chan.make 20)
            World.empty).2.1.sendq) :=
  ⟨rfl,
   (ProcessAlert_sends_one (sampleEnv (respondWith 200)) docWithGateway (Chan.make 20)
      World.empty rfl).2.1,
   ((ProcessAlert_sends_one (sampleEnv (respondWith 200)) docWithGateway (Chan.make 20)
      World.empty rfl).2.2 chanFullOneSpawned 0 sampleNotification rfl).2.1 (by decide),
   ((ProcessAlert_sends_one (sampleEnv (respondWith 200)) docWithGateway (Chan.make 20)
      World.empty rfl).2.2
      (ProcessAlert (sampleEnv (respondWith 200)) docWithGateway (Chan.make 20) World.empty).2.1
      0 ⟨"Process Alert", "Alert", .alert ⟨0, .obj [("gateway_id", .str "g")]⟩, "g"⟩ rfl).1
      (by decide)⟩

/-- The sends of two calls of `ProcessAlert` are made by two goroutines, which
the scheduler may run in either order: the notification of the later call can
reach the channel first. -/
theorem spawned_sends_either_order :
    (((ProcessAlert (sampleEnv (respondWith 200)) docNoGateway
          (ProcessAlert (sampleEnv (respondWith 200)) docWithGateway (Chan.make 20)
            World.empty).2.1 World.empty).2.1.runSpawned 0).runSpawned 0).buf.map
        (fun n => n.GatewayID) = ["g", ""]
    ∧ (((ProcessAlert (sampleEnv (respondWith 200)) docNoGateway
          (ProcessAlert (sampleEnv (respondWith 200)) docWithGateway (Chan.make 20)
            World.empty).2.1 World.empty).2.1.runSpawned 1).runSpawned 0).buf.map
        (fun n => n.GatewayID) = ["", "g"] := by
  constructor <;> rfl

/-- C16: whenever `alert.ProcessAlert` returns an error (the input does not
parse, the type assertion on `value` fails, or the decoding into the alert
message fails) nothing is sent: the channel is exactly as it was. -/
theorem ProcessAlert_error_keeps_channel (env : Env) (jsonBytes : Bytes) (ch : Chan)
    (w : World) (h : (ProcessAlert env jsonBytes ch w).1 ≠ none) :
    (ProcessAlert env jsonBytes ch w).2.1 = ch := by
  rcases ProcessAlert_cases env jsonBytes ch w with
    ⟨_, _, _, _, _, _, h4, _⟩ | ⟨_, hch⟩
  · exact absurd h4 h
  · exact hch

/-- C16, at concrete inputs: bytes that are not JSON, the document `{}` whose
`value` is missing, and a document that does not decode as an alert message,
each met with 15 notifications already queued. -/
theorem ProcessAlert_error_keeps_channel_witness :
    ((ProcessAlert (sampleEnv (respondWith 200)) [123] chanFifteen World.empty).1 ≠ none
      ∧ (ProcessAlert (sampleEnv (respondWith 200)) [123] chanFifteen World.empty).2.1
          = chanFifteen)
    ∧ ((ProcessAlert (sampleEnv (respondWith 200)) docEmptyObject chanFifteen World.empty).1
          ≠ none
      ∧ (ProcessAlert (sampleEnv (respondWith 200)) docEmptyObject chanFifteen World.empty).2.1
          = chanFifteen)
    ∧ ((ProcessAlert envDecodeFails docWithGateway chanFifteen World.empty).1 ≠ none
      ∧ (ProcessAlert envDecodeFails docWithGateway chanFifteen World.empty).2.1
          = chanFifteen) :=
  ⟨⟨by decide, ProcessAlert_error_keeps_channel (sampleEnv (respondWith 200)) [123]
      chanFifteen World.empty (by decide)⟩,
   ⟨by decide, ProcessAlert_error_keeps_channel (sampleEnv (respondWith 200)) docEmptyObject
      chanFifteen World.empty (by decide)⟩,
   ⟨by decide, ProcessAlert_error_keeps_channel envDecodeFails docWithGateway
      chanFifteen World.empty (by decide)⟩⟩

/-! ### How often the warning is logged -/

/-- `PostNotification` adds no warning to the log. -/
theorem PostNotification_log_count (env : Env) (data : Dyn) (toURL : String) (w : World) :
    (PostNotification env data toURL w).2.log.count ⟨.warn, "Channel size getting full!"⟩
      = w.log.count ⟨.warn, "Channel size getting full!"⟩ := by
  cases h1 : env.marshalIndent data "" "    " with
  | error e => simp [PostNotification, h1]
  | ok mData =>
    cases h2 : env.parseURL toURL with
    | some e => simp [PostNotification, NewRequest, World.logLine, h1, h2, List.count_cons]
    | none =>
      cases h3 : env.clientDo w.posts.length
          ⟨"POST", toURL, mData, [("content-type", jsonApplication)]⟩ with
      | error e =>
        simp [PostNotification, NewRequest, clientDo, World.logLine, h1, h2, h3,
          Request.setHeader, List.count_cons]
      | ok response =>
        by_cases h4 : response.StatusCode = 200
        · cases h5 : response.Body.readAll with
          | error e =>
            simp [PostNotification, NewRequest, clientDo, World.logLine, h1, h2, h3, h4, h5,
              Request.setHeader, List.count_cons]
          | ok body =>
            cases h6 : response.Body.close <;>
            simp [PostNotification, NewRequest, clientDo, World.logLine, h1, h2, h3, h4, h5, h6,
              Request.setHeader, List.count_cons]
        · simp [PostNotification, NewRequest, clientDo, World.logLine, h1, h2, h3, h4,
            Request.setHeader, List.count_cons]

/-- The loop body of `NotifyChannel` adds one warning to the log when the
number of notifications left in the channel is at least
`NotificationChanSize - 10`, and none otherwise. -/
theorem notifyOne_log_count (env : Env) (cfg : Config) (n : Notification) (ch : Chan)
    (w : World) :
    (notifyOne env cfg n ch w).log.count ⟨.warn, "Channel size getting full!"⟩
      = w.log.count ⟨.warn, "Channel size getting full!"⟩
        + if (ch.len : Int) ≥ wrapInt64 (cfg.NotificationChanSize - 10) then 1 else 0 := by
  have hw1 : (if (ch.len : Int) ≥ wrapInt64 (cfg.NotificationChanSize - 10) then
        w.logLine .warn "Channel size getting full!" else w).log.count
          ⟨.warn, "Channel size getting full!"⟩
      = w.log.count ⟨.warn, "Channel size getting full!"⟩
        + if (ch.len : Int) ≥ wrapInt64 (cfg.NotificationChanSize - 10) then 1 else 0 := by
    by_cases hc : (ch.len : Int) ≥ wrapInt64 (cfg.NotificationChanSize - 10)
    · simp [hc, World.logLine]
    · simp [hc]
  unfold notifyOne
  simp only []
  generalize (if (ch.len : Int) ≥ wrapInt64 (cfg.NotificationChanSize - 10) then
      w.logLine .warn "Channel size getting full!" else w) = w1 at hw1 ⊢
  rw [← hw1]
  cases hg : env.generatePayload n with
  | error e => simp [World.logLine, List.count_cons]
  | ok generated =>
    simp only []
    have hlog := PostNotification_log_count env generated.Data
      (cfg.CloudConnectorURL ++ cfg.CloudConnectorEndpoint) w1
    cases hp : PostNotification env generated.Data
        (cfg.CloudConnectorURL ++ cfg.CloudConnectorEndpoint) w1 with
    | mk res w2 =>
      rw [hp] at hlog
      obtain ⟨data, err⟩ := res
      rw [← hlog]
      cases err <;> simp [World.logLine, List.count_cons]

/-- Within the range of Go's `int` the wrap-around does nothing. -/
theorem wrapInt64_of_range (x : Int) (hlow : -9223372036854775808 ≤ x)
    (hhigh : x ≤ 9223372036854775807) : wrapInt64 x = x := by
  unfold wrapInt64
  omega

/-- With `NotificationChanSize` at most 10, and not so low that the
subtraction wraps around, the loop of `NotifyChannel` adds one warning per
notification it takes from the channel. -/
theorem notifyLoop_warn_count (env : Env) (cfg : Config)
    (hlow : -9223372036854775798 ≤ cfg.NotificationChanSize)
    (hsmall : cfg.NotificationChanSize ≤ 10) :
    ∀ (fuel : Nat) (ch : Chan) (w : World), ch.buf.length + ch.sendq.length ≤ fuel →
      (notifyLoop env cfg fuel ch w).2.log.count ⟨.warn, "Channel size getting full!"⟩
        = w.log.count ⟨.warn, "Channel size getting full!"⟩
          + (ch.buf.length + ch.sendq.length) := by
  have hone : ∀ (n : Notification) (ch : Chan) (w : World),
      (notifyOne env cfg n ch w).log.count ⟨.warn, "Channel size getting full!"⟩
        = w.log.count ⟨.warn, "Channel size getting full!"⟩ + 1 := by
    intro n ch w
    rw [notifyOne_log_count]
    have hc : (ch.len : Int) ≥ wrapInt64 (cfg.NotificationChanSize - 10) := by
      have : (0 : Int) ≤ (ch.len : Int) := Int.ofNat_nonneg _
      rw [wrapInt64_of_range _ (by omega) (by omega)]
      omega
    simp [hc]
  intro fuel
  induction fuel with
  | zero =>
    intro ch w h
    obtain ⟨cap, buf, sendq, spawned⟩ := ch
    have hboth : buf = [] ∧ sendq = [] := by simpa using h
    obtain ⟨hb, hs⟩ := hboth
    subst hb hs
    simp [notifyLoop]
  | succ fuel ih =>
    intro ch w h
    obtain ⟨cap, buf, sendq, spawned⟩ := ch
    cases buf with
    | nil =>
      cases sendq with
      | nil => simp [notifyLoop, Chan.recv]
      | cons s waiting =>
        have hlen : (Chan.mk cap [] waiting spawned).buf.length + (Chan.mk cap [] waiting spawned).sendq.length
            ≤ fuel := by simp at h ⊢; omega
        have h1 := ih ⟨cap, [], waiting, spawned⟩ (notifyOne env cfg s ⟨cap, [], waiting, spawned⟩ w) hlen
        simp only [notifyLoop, Chan.recv]
        rw [h1, hone]
        simp only [List.length_nil, List.length_cons]
        omega
    | cons n rest =>
      cases sendq with
      | nil =>
        have hlen : (Chan.mk cap rest [] spawned).buf.length + (Chan.mk cap rest [] spawned).sendq.length
            ≤ fuel := by simp at h ⊢; omega
        have h1 := ih ⟨cap, rest, [], spawned⟩ (notifyOne env cfg n ⟨cap, rest, [], spawned⟩ w) hlen
        simp only [notifyLoop, Chan.recv]
        rw [h1, hone]
        simp only [List.length_nil, List.length_cons]
        omega
      | cons s waiting =>
        have hlen : (Chan.mk cap (rest ++ [s]) waiting spawned).buf.length
            + (Chan.mk cap (rest ++ [s]) waiting spawned).sendq.length ≤ fuel := by
          simp at h ⊢; omega
        have h1 := ih ⟨cap, rest ++ [s], waiting, spawned⟩
          (notifyOne env cfg n ⟨cap, rest ++ [s], waiting, spawned⟩ w) hlen
        simp only [notifyLoop, Chan.recv]
        rw [h1, hone]
        simp only [List.length_nil, List.length_cons, List.length_append]
        omega

/-- C9 (counterexample): with capacity 20 and 15 notifications queued (at
least 20 - 10), `ProcessAlert` starts the goroutine that enqueues a sixteenth
notification, the goroutine enqueues it, and the warning is not logged. -/
theorem ProcessAlert_enqueue_no_warning :
    sampleConfig.NotificationChanSize - 10 ≤ (chanFifteen.buf.length : Int)
    ∧ (ProcessAlert (sampleEnv (respondWith 200)) docNoGateway chanFifteen World.empty).1 = none
    ∧ ((ProcessAlert (sampleEnv (respondWith 200)) docNoGateway chanFifteen
          World.empty).2.1.runSpawned 0).buf.length = 16
    ∧ (⟨.warn, "Channel size getting full!"⟩ : LogEntry) ∉
        (ProcessAlert (sampleEnv (respondWith 200)) docNoGateway chanFifteen World.empty).2.2.log := by
  refine ⟨by decide, rfl, rfl, ?_⟩
  rw [ProcessAlert_log_warn]
  simp [World.empty]

/-- C9 (amended): the warning belongs to the consumer, not to the enqueue.
`ProcessAlert` never logs it, whatever the occupancy of the channel (and the
send of its goroutine logs nothing at all); `NotifyChannel` runs its loop body
on each dequeued notification `n` and logs the warning there exactly when the
number of notifications buffered in the channel `ch` after the receive is at
least `NotificationChanSize - 10`, computed as Go computes it on `int`s.  For
every size from the least `int` plus 10 upwards that is the plain
difference. -/
theorem channel_warning_on_dequeue (env : Env) (cfg : Config) (jsonBytes : Bytes)
    (n : Notification) (ch : Chan) (w : World)
    (hw : (⟨.warn, "Channel size getting full!"⟩ : LogEntry) ∉ w.log) :
    (⟨.warn, "Channel size getting full!"⟩ : LogEntry) ∉ (ProcessAlert env jsonBytes ch w).2.2.log
    ∧ (∀ queue : Chan, queue.recv = some (n, ch) →
        NotifyChannel env cfg queue w = NotifyChannel env cfg ch (notifyOne env cfg n ch w))
    ∧ ((⟨.warn, "Channel size getting full!"⟩ : LogEntry) ∈ (notifyOne env cfg n ch w).log
        ↔ (ch.buf.length : Int) ≥ wrapInt64 (cfg.NotificationChanSize - 10))
    ∧ (-9223372036854775798 ≤ cfg.NotificationChanSize →
        cfg.NotificationChanSize ≤ 9223372036854775807 →
        ((⟨.warn, "Channel size getting full!"⟩ : LogEntry) ∈ (notifyOne env cfg n ch w).log
          ↔ (ch.buf.length : Int) ≥ cfg.NotificationChanSize - 10)) := by
  have hiff : (⟨.warn, "Channel size getting full!"⟩ : LogEntry) ∈ (notifyOne env cfg n ch w).log
      ↔ (ch.buf.length : Int) ≥ wrapInt64 (cfg.NotificationChanSize - 10) :=
    notifyOne_log_warn env cfg n ch w hw
  refine ⟨?_, fun queue h => NotifyChannel_step env cfg queue ch n w h, hiff, ?_⟩
  · rw [ProcessAlert_log_warn]
    exact hw
  · intro hlow hhigh
    rw [hiff, wrapInt64_of_range _ (by omega) (by omega)]

/-- C9 (amended), at concrete inputs: capacity 20 and nothing logged before.
An enqueue with 15 notifications queued logs no warning; a dequeue that leaves
15 logs it; a dequeue that leaves 5 does not. -/
theorem channel_warning_on_dequeue_witness :
    (⟨.warn, "Channel size getting full!"⟩ : LogEntry) ∉
        (ProcessAlert (sampleEnv (respondWith 200)) docNoGateway chanFifteen World.empty).2.2.log
    ∧ (NotifyChannel (sampleEnv (respondWith 200)) sampleConfig
          ⟨20, sampleNotification :: List.replicate 15 sampleNotification, [], []⟩ World.empty
        = NotifyChannel (sampleEnv (respondWith 200)) sampleConfig chanFifteen
            (notifyOne (sampleEnv (respondWith 200)) sampleConfig sampleNotification
              chanFifteen World.empty))
    ∧ (⟨.warn, "Channel size getting full!"⟩ : LogEntry) ∈
        (notifyOne (sampleEnv (respondWith 200)) sampleConfig sampleNotification chanFifteen
          World.empty).log
    ∧ (⟨.warn, "Channel size getting full!"⟩ : LogEntry) ∉
        (notifyOne (sampleEnv (respondWith 200)) sampleConfig sampleNotification chanFive
          World.empty).log :=
  ⟨(channel_warning_on_dequeue (sampleEnv (respondWith 200)) sampleConfig docNoGateway
      sampleNotification chanFifteen World.empty (by decide)).1,
   (channel_warning_on_dequeue (sampleEnv (respondWith 200)) sampleConfig docNoGateway
      sampleNotification chanFifteen World.empty (by decide)).2.1
      ⟨20, sampleNotification :: List.replicate 15 sampleNotification, [], []⟩ rfl,
   ((channel_warning_on_dequeue (sampleEnv (respondWith 200)) sampleConfig docNoGateway
      sampleNotification chanFifteen World.empty (by decide)).2.2.2 (by decide)
      (by decide)).mpr (by decide),
   fun h => absurd
     (((channel_warning_on_dequeue (sampleEnv (respondWith 200)) sampleConfig docNoGateway
        sampleNotification chanFive World.empty (by decide)).2.2.2 (by decide)
        (by decide)).mp h) (by decide)⟩

/-- C18 (counterexample): with a configured size of the least `int` plus 5,
which is at most 10, and an empty channel, the number of notifications left
(0) is at least the size minus 10, yet the loop body logs no warning: Go's
subtraction wraps around to a large positive number. -/
theorem NotifyChannel_no_warning_below_range :
    configWrapping.NotificationChanSize ≤ 10
    ∧ ((Chan.make 20).buf.length : Int) ≥ configWrapping.NotificationChanSize - 10
    ∧ (⟨.warn, "Channel size getting full!"⟩ : LogEntry) ∉
        (notifyOne (sampleEnv (respondWith 200)) configWrapping sampleNotification (Chan.make 20)
          World.empty).log
    ∧ (NotifyChannel (sampleEnv (respondWith 200)) configWrapping
          ⟨20, [sampleNotification], [], []⟩ World.empty).2.log.count
        ⟨.warn, "Channel size getting full!"⟩ = 0 := by
  refine ⟨by decide, by decide, ?_, ?_⟩
  · rw [notifyOne_log_warn _ _ _ _ _ (by decide)]
    decide
  · have hstep := NotifyChannel_step (sampleEnv (respondWith 200)) configWrapping
      ⟨20, [sampleNotification], [], []⟩ (Chan.make 20) sampleNotification World.empty rfl
    rw [hstep]
    have hdone : NotifyChannel (sampleEnv (respondWith 200)) configWrapping (Chan.make 20)
        (notifyOne (sampleEnv (respondWith 200)) configWrapping sampleNotification
          (Chan.make 20) World.empty)
        = (Chan.make 20, notifyOne (sampleEnv (respondWith 200)) configWrapping
            sampleNotification (Chan.make 20) World.empty) := rfl
    rw [hdone, notifyOne_log_count]
    decide

/-- C18 (amended): for a notification `n` taken from the queue, with `ch` the
channel after that receive, `NotifyChannel` logs the warning once when the
number of notifications buffered in `ch` is at least
`NotificationChanSize - 10`, computed as Go computes it on `int`s, and not at
all otherwise.  For every size from the least `int` plus 10 upwards that is
the plain difference; hence with a size in that range and at most 10 the
warning is logged for every notification, an empty channel included, and
draining a queue adds as many warnings as there were notifications. -/
theorem NotifyChannel_warning_iff (env : Env) (cfg : Config) (n : Notification) (ch : Chan)
    (w : World) :
    (∀ queue : Chan, queue.recv = some (n, ch) →
        NotifyChannel env cfg queue w = NotifyChannel env cfg ch (notifyOne env cfg n ch w))
    ∧ ((notifyOne env cfg n ch w).log.count ⟨.warn, "Channel size getting full!"⟩
        = w.log.count ⟨.warn, "Channel size getting full!"⟩
          + if (ch.buf.length : Int) ≥ wrapInt64 (cfg.NotificationChanSize - 10) then 1 else 0)
    ∧ ((⟨.warn, "Channel size getting full!"⟩ : LogEntry) ∉ w.log →
        ((⟨.warn, "Channel size getting full!"⟩ : LogEntry) ∈ (notifyOne env cfg n ch w).log
          ↔ (ch.buf.length : Int) ≥ wrapInt64 (cfg.NotificationChanSize - 10)))
    ∧ (-9223372036854775798 ≤ cfg.NotificationChanSize →
        cfg.NotificationChanSize ≤ 9223372036854775807 →
        (notifyOne env cfg n ch w).log.count ⟨.warn, "Channel size getting full!"⟩
          = w.log.count ⟨.warn, "Channel size getting full!"⟩
            + if (ch.buf.length : Int) ≥ cfg.NotificationChanSize - 10 then 1 else 0)
    ∧ (-9223372036854775798 ≤ cfg.NotificationChanSize → cfg.NotificationChanSize ≤ 10 →
        (⟨.warn, "Channel size getting full!"⟩ : LogEntry)
            ∈ (notifyOne env cfg n (Chan.make ch.cap) w).log
        ∧ (⟨.warn, "Channel size getting full!"⟩ : LogEntry) ∈ (notifyOne env cfg n ch w).log
        ∧ ∀ queue : Chan,
            (NotifyChannel env cfg queue w).2.log.count ⟨.warn, "Channel size getting full!"⟩
              = w.log.count ⟨.warn, "Channel size getting full!"⟩
                + (queue.buf.length + queue.sendq.length)) := by
  have hcount : ∀ c : Chan,
      (notifyOne env cfg n c w).log.count ⟨.warn, "Channel size getting full!"⟩
        = w.log.count ⟨.warn, "Channel size getting full!"⟩
          + if (c.buf.length : Int) ≥ wrapInt64 (cfg.NotificationChanSize - 10) then 1 else 0 :=
    fun c => notifyOne_log_count env cfg n c w
  have hmem : ∀ c : Chan, -9223372036854775798 ≤ cfg.NotificationChanSize →
      cfg.NotificationChanSize ≤ 10 →
      (⟨.warn, "Channel size getting full!"⟩ : LogEntry) ∈ (notifyOne env cfg n c w).log := by
    intro c hlow hsmall
    have hc : (c.buf.length : Int) ≥ wrapInt64 (cfg.NotificationChanSize - 10) := by
      have : (0 : Int) ≤ (c.buf.length : Int) := Int.ofNat_nonneg _
      rw [wrapInt64_of_range _ (by omega) (by omega)]
      omega
    have h := hcount c
    simp only [hc, if_true] at h
    exact List.count_pos_iff.mp (by omega)
  refine ⟨fun queue h => NotifyChannel_step env cfg queue ch n w h, hcount ch,
    notifyOne_log_warn env cfg n ch w, ?_, ?_⟩
  · intro hlow hhigh
    rw [hcount ch, wrapInt64_of_range _ (by omega) (by omega)]
  · intro hlow hsmall
    exact ⟨hmem _ hlow hsmall, hmem _ hlow hsmall,
      fun queue => notifyLoop_warn_count env cfg hlow hsmall _ queue w (le_refl _)⟩

/-- C18 (amended), at concrete inputs: with 20 slots the warning is logged
when 15 notifications are left and not when 5 are left; with 5 slots it is
logged on an empty channel and three queued notifications give three
warnings. -/
theorem NotifyChannel_warning_iff_witness :
    (NotifyChannel (sampleEnv (respondWith 200)) sampleConfig
        ⟨20, sampleNotification :: List.replicate 15 sampleNotification, [], []⟩ World.empty
      = NotifyChannel (sampleEnv (respondWith 200)) sampleConfig chanFifteen
          (notifyOne (sampleEnv (respondWith 200)) sampleConfig sampleNotification chanFifteen
            World.empty))
    ∧ ((⟨.warn, "Channel size getting full!"⟩ : LogEntry)
          ∈ (notifyOne (sampleEnv (respondWith 200)) sampleConfig sampleNotification chanFifteen
              World.empty).log)
    ∧ ((⟨.warn, "Channel size getting full!"⟩ : LogEntry)
          ∉ (notifyOne (sampleEnv (respondWith 200)) sampleConfig sampleNotification chanFive
              World.empty).log)
    ∧ ((notifyOne (sampleEnv (respondWith 200)) sampleConfig sampleNotification chanFive
          World.empty).log.count ⟨.warn, "Channel size getting full!"⟩
        = World.empty.log.count ⟨.warn, "Channel size getting full!"⟩
          + if (chanFive.buf.length : Int) ≥ sampleConfig.NotificationChanSize - 10 then 1
            else 0)
    ∧ ((⟨.warn, "Channel size getting full!"⟩ : LogEntry)
          ∈ (notifyOne (sampleEnv (respondWith 200)) configSmallChan sampleNotification
              (Chan.make 5) World.empty).log)
    ∧ ((NotifyChannel (sampleEnv (respondWith 200)) configSmallChan
          ⟨5, [sampleNotification, sampleNotification, sampleNotification], [], []⟩
          World.empty).2.log.count ⟨.warn, "Channel size getting full!"⟩
        = World.empty.log.count ⟨.warn, "Channel size getting full!"⟩ + (3 + 0)) :=
  ⟨(NotifyChannel_warning_iff (sampleEnv (respondWith 200)) sampleConfig sampleNotification
      chanFifteen World.empty).1
      ⟨20, sampleNotification :: List.replicate 15 sampleNotification, [], []⟩ rfl,
   ((NotifyChannel_warning_iff (sampleEnv (respondWith 200)) sampleConfig sampleNotification
      chanFifteen World.empty).2.2.1 (by decide)).mpr (by decide),
   fun h => absurd
     (((NotifyChannel_warning_iff (sampleEnv (respondWith 200)) sampleConfig sampleNotification
        chanFive World.empty).2.2.1 (by decide)).mp h) (by decide),
   (NotifyChannel_warning_iff (sampleEnv (respondWith 200)) sampleConfig sampleNotification
      chanFive World.empty).2.2.2.1 (by decide) (by decide),
   ((NotifyChannel_warning_iff (sampleEnv (respondWith 200)) configSmallChan sampleNotification
      (Chan.make 5) World.empty).2.2.2.2 (by decide) (by decide)).1,
   ((NotifyChannel_warning_iff (sampleEnv (respondWith 200)) configSmallChan sampleNotification
      (Chan.make 5) World.empty).2.2.2.2 (by decide) (by decide)).2.2
      ⟨5, [sampleNotification, sampleNotification, sampleNotification], [], []⟩⟩

/-! ### Gateway liveness -/

/-- C13: the `Gateway Registered` alert built from a heartbeat carries the
device id of the heartbeat; its facility list is the heartbeat's list, in the
same order, when that list is not empty, and is `["UNDEFINED_FACILITY"]` when
the list is empty or absent.  The two heartbeats of `TestHeartbeatAlert` pass
the assertions of that test. -/
theorem GatewayRegisteredAlert_facilities (heartbeat : Heartbeat) :
    ((GatewayRegisteredAlert heartbeat).2 = heartbeat.DeviceID
      ∧ (GatewayRegisteredAlert heartbeat).1.DeviceID = heartbeat.DeviceID
      ∧ (GatewayRegisteredAlert heartbeat).1.AlertDescription = "Gateway Registered")
    ∧ (∀ facilities, heartbeat.Facilities = some facilities → facilities ≠ [] →
        (GatewayRegisteredAlert heartbeat).1.Facilities = facilities)
    ∧ (heartbeat.Facilities = some [] ∨ heartbeat.Facilities = none →
        (GatewayRegisteredAlert heartbeat).1.Facilities = ["UNDEFINED_FACILITY"])
    ∧ ((GatewayRegisteredAlert mockHeartbeat).2 = mockHeartbeat.DeviceID
      ∧ (GatewayRegisteredAlert mockHeartbeat).1.Facilities = ["facility1", "facility2"]
      ∧ (GatewayRegisteredAlert mockHeartbeatNoFacility).1.Facilities.length = 1
      ∧ (GatewayRegisteredAlert mockHeartbeatNoFacility).1.Facilities.head? = some UndefinedFacility) := by
  refine ⟨⟨rfl, rfl, rfl⟩, ?_, ?_, ⟨rfl, rfl, rfl, rfl⟩⟩
  · intro facilities h hne
    cases facilities with
    | nil => exact absurd rfl hne
    | cons facility rest => simp [GatewayRegisteredAlert, normalizeFacilities, h]
  · intro h
    rcases h with h | h <;> simp [GatewayRegisteredAlert, normalizeFacilities, h, UndefinedFacility]

/-- C13, at concrete inputs: the heartbeat of the test with two facilities, a
heartbeat with an empty facility list and one without facility list. -/
theorem GatewayRegisteredAlert_facilities_witness :
    (GatewayRegisteredAlert mockHeartbeat).1.Facilities = ["facility1", "facility2"]
    ∧ (GatewayRegisteredAlert mockHeartbeatNoFacility).1.Facilities = ["UNDEFINED_FACILITY"]
    ∧ (GatewayRegisteredAlert mockHeartbeatAbsentFacility).1.Facilities
        = ["UNDEFINED_FACILITY"] :=
  ⟨(GatewayRegisteredAlert_facilities mockHeartbeat).2.1 ["facility1", "facility2"] rfl
      (by decide),
   (GatewayRegisteredAlert_facilities mockHeartbeatNoFacility).2.2.1 (Or.inl rfl),
   (GatewayRegisteredAlert_facilities mockHeartbeatAbsentFacility).2.2.1 (Or.inr rfl)⟩

/-- A tick on a registry holding one record is the tick on that record. -/
theorem OnWatchdogTick_single (now threshold : Int) (maxMissed : Nat) (record : GatewayRecord) :
    OnWatchdogTick now threshold maxMissed [record]
      = ([(tickRecord now threshold maxMissed record).1],
          (tickRecord now threshold maxMissed record).2) := by
  simp [OnWatchdogTick]

/-- Ticks on a deregistered record change nothing and emit nothing. -/
theorem watchdogTicks_deregistered (threshold : Int) (maxMissed : Nat) (record : GatewayRecord)
    (h : record.registrationStatus = .Deregistered) :
    ∀ nows : List Time, watchdogTicks threshold maxMissed nows [record] = ([record], []) := by
  intro nows
  induction nows with
  | nil => rfl
  | cons now later ih =>
    have ht : tickRecord now threshold maxMissed record = (record, []) := by
      simp [tickRecord, h]
    simp [watchdogTicks, OnWatchdogTick_single, ht, ih]

/-- Ticks that all exceed the threshold, too few to reach `maxMissed`, only
count. -/
theorem watchdogTicks_counting (threshold : Int) (maxMissed : Nat) :
    ∀ (nows : List Time) (record : GatewayRecord),
      record.registrationStatus = .Registered →
      (∀ now ∈ nows, now - record.lastHeartbeatAt > threshold) →
      record.missedHeartbeatCount + nows.length < maxMissed →
      watchdogTicks threshold maxMissed nows [record]
        = ([{ record with missedHeartbeatCount := record.missedHeartbeatCount + nows.length }],
            []) := by
  intro nows
  induction nows with
  | nil => intro record _ _ _; rfl
  | cons now later ih =>
    intro record hreg hexceed hlt
    have hnow : now - record.lastHeartbeatAt > threshold := hexceed now (List.mem_cons_self _ _)
    have hlt1 : ¬ (record.missedHeartbeatCount + 1 ≥ maxMissed) := by
      simp only [List.length_cons] at hlt
      omega
    have ht : tickRecord now threshold maxMissed record
        = ({ record with missedHeartbeatCount := record.missedHeartbeatCount + 1 }, []) := by
      simp [tickRecord, hreg, hnow, hlt1]
    have hrest := ih { record with missedHeartbeatCount := record.missedHeartbeatCount + 1 }
      hreg (fun t ht => hexceed t (List.mem_cons_of_mem _ ht))
      (by simp only [List.length_cons] at hlt; simp only []; omega)
    simp only [watchdogTicks, OnWatchdogTick_single, ht, hrest, List.nil_append]
    simp only [List.length_cons, Nat.add_assoc, Nat.add_comm 1]

/-- Ticks that all exceed the threshold, just enough to reach `maxMissed`,
deregister the gateway at the last of them and emit one notification. -/
theorem watchdogTicks_reaching (threshold : Int) (maxMissed : Nat) :
    ∀ (nows : List Time) (record : GatewayRecord),
      record.registrationStatus = .Registered →
      (∀ now ∈ nows, now - record.lastHeartbeatAt > threshold) →
      nows ≠ [] →
      record.missedHeartbeatCount + nows.length = maxMissed →
      watchdogTicks threshold maxMissed nows [record]
        = ([{ record with registrationStatus := .Deregistered,
                          missedHeartbeatCount := maxMissed }],
            [deregisteredNotification record]) := by
  intro nows
  induction nows with
  | nil => intro record _ _ hne _; exact absurd rfl hne
  | cons now later ih =>
    intro record hreg hexceed _ hlen
    have hnow : now - record.lastHeartbeatAt > threshold := hexceed now (List.mem_cons_self _ _)
    cases later with
    | nil =>
      have hge : record.missedHeartbeatCount + 1 ≥ maxMissed := by
        simp only [List.length_cons, List.length_nil] at hlen
        omega
      have heq : record.missedHeartbeatCount + 1 = maxMissed := by
        simp only [List.length_cons, List.length_nil] at hlen
        omega
      have ht : tickRecord now threshold maxMissed record
          = ({ record with registrationStatus := .Deregistered,
                           missedHeartbeatCount := maxMissed },
              [deregisteredNotification record]) := by
        simp [tickRecord, hreg, hnow, hge, heq, deregisteredNotification]
      simp [watchdogTicks, OnWatchdogTick_single, ht]
    | cons next more =>
      have hlt1 : ¬ (record.missedHeartbeatCount + 1 ≥ maxMissed) := by
        simp only [List.length_cons] at hlen
        omega
      have ht : tickRecord now threshold maxMissed record
          = ({ record with missedHeartbeatCount := record.missedHeartbeatCount + 1 }, []) := by
        simp [tickRecord, hreg, hnow, hlt1]
      have hrest := ih { record with missedHeartbeatCount := record.missedHeartbeatCount + 1 }
        hreg (fun t ht => hexceed t (List.mem_cons_of_mem _ ht)) (List.cons_ne_nil _ _)
        (by simp only [List.length_cons] at hlen ⊢; omega)
      have hstep : watchdogTicks threshold maxMissed (now :: next :: more) [record]
          = ((watchdogTicks threshold maxMissed (next :: more)
                (OnWatchdogTick now threshold maxMissed [record]).1).1,
              (OnWatchdogTick now threshold maxMissed [record]).2
                ++ (watchdogTicks threshold maxMissed (next :: more)
                    (OnWatchdogTick now threshold maxMissed [record]).1).2) := rfl
      rw [hstep, OnWatchdogTick_single, ht]
      simp only []
      rw [hrest]
      rfl

/-- A tick keeps the gateway id of a record, and what it emits is about that
gateway. -/
theorem tickRecord_gatewayID (now threshold : Int) (maxMissed : Nat) (record : GatewayRecord) :
    (tickRecord now threshold maxMissed record).1.gatewayID = record.gatewayID
    ∧ ∀ n ∈ (tickRecord now threshold maxMissed record).2, n.gatewayID = record.gatewayID := by
  unfold tickRecord
  cases hs : record.registrationStatus with
  | Deregistered => simp
  | Registered =>
    by_cases hnow : now - record.lastHeartbeatAt > threshold
    · by_cases hge : record.missedHeartbeatCount + 1 ≥ maxMissed
      · simp [hnow, hge, deregisteredNotification]
      · simp [hnow, hge]
    · simp [hnow]

/-- A tick on a registry made of two parts is the tick on each part. -/
theorem OnWatchdogTick_append (now threshold : Int) (maxMissed : Nat) :
    ∀ (first second : List GatewayRecord),
      OnWatchdogTick now threshold maxMissed (first ++ second)
        = ((OnWatchdogTick now threshold maxMissed first).1
              ++ (OnWatchdogTick now threshold maxMissed second).1,
            (OnWatchdogTick now threshold maxMissed first).2
              ++ (OnWatchdogTick now threshold maxMissed second).2) := by
  intro first
  induction first with
  | nil => intro second; simp [OnWatchdogTick]
  | cons record rest ih =>
    intro second
    have hstep : OnWatchdogTick now threshold maxMissed (record :: rest ++ second)
        = ((tickRecord now threshold maxMissed record).1
              :: (OnWatchdogTick now threshold maxMissed (rest ++ second)).1,
            (tickRecord now threshold maxMissed record).2
              ++ (OnWatchdogTick now threshold maxMissed (rest ++ second)).2) := rfl
    rw [hstep, ih]
    simp [OnWatchdogTick]

/-- A tick on records of other gateways leaves records of other gateways and
emits nothing about the gateway looked at. -/
theorem OnWatchdogTick_others (now threshold : Int) (maxMissed : Nat) (gatewayID : String) :
    ∀ others : List GatewayRecord, (∀ r ∈ others, r.gatewayID ≠ gatewayID) →
      (∀ r ∈ (OnWatchdogTick now threshold maxMissed others).1, r.gatewayID ≠ gatewayID)
      ∧ emittedFor gatewayID (OnWatchdogTick now threshold maxMissed others).2 = [] := by
  intro others
  induction others with
  | nil => intro _; simp [OnWatchdogTick, emittedFor]
  | cons record rest ih =>
    intro h
    have hrec : record.gatewayID ≠ gatewayID := h record (List.mem_cons_self _ _)
    obtain ⟨ih1, ih2⟩ := ih (fun r hr => h r (List.mem_cons_of_mem _ hr))
    have hid := tickRecord_gatewayID now threshold maxMissed record
    refine ⟨?_, ?_⟩
    · intro r hr
      simp only [OnWatchdogTick, List.mem_cons] at hr
      rcases hr with hr | hr
      · rw [hr, hid.1]; exact hrec
      · exact ih1 r hr
    · simp only [OnWatchdogTick, emittedFor, List.filter_append]
      have hnone : (tickRecord now threshold maxMissed record).2.filter
          (fun notification => notification.gatewayID = gatewayID) = [] := by
        rw [List.filter_eq_nil_iff]
        intro n hn
        have := hid.2 n hn
        simp [this, hrec]
      rw [hnone]
      exact ih2

/-- The record of a gateway is found behind records of other gateways. -/
theorem lookupGateway_middle (pre post : List GatewayRecord) (record : GatewayRecord)
    (hpre : ∀ r ∈ pre, r.gatewayID ≠ record.gatewayID) :
    lookupGateway record.gatewayID (pre ++ record :: post) = some record := by
  induction pre with
  | nil => simp [lookupGateway]
  | cons r rest ih =>
    have hr : r.gatewayID ≠ record.gatewayID := hpre r (List.mem_cons_self _ _)
    have := ih (fun x hx => hpre x (List.mem_cons_of_mem _ hx))
    simp only [lookupGateway] at this ⊢
    simp [List.find?_cons, hr, this]

/-- The run of ticks on a registry of one record keeps one record, of the same
gateway, and emits only about that gateway. -/
theorem watchdogTicks_single_shape (threshold : Int) (maxMissed : Nat) :
    ∀ (nows : List Time) (record : GatewayRecord),
      ∃ after, (watchdogTicks threshold maxMissed nows [record]).1 = [after]
        ∧ after.gatewayID = record.gatewayID
        ∧ ∀ n ∈ (watchdogTicks threshold maxMissed nows [record]).2,
            n.gatewayID = record.gatewayID := by
  intro nows
  induction nows with
  | nil => intro record; exact ⟨record, rfl, rfl, by simp [watchdogTicks]⟩
  | cons now later ih =>
    intro record
    have hid := tickRecord_gatewayID now threshold maxMissed record
    obtain ⟨after, h1, h2, h3⟩ := ih (tickRecord now threshold maxMissed record).1
    refine ⟨after, ?_, ?_, ?_⟩
    · simp only [watchdogTicks, OnWatchdogTick_single]
      exact h1
    · rw [h2, hid.1]
    · intro n hn
      simp only [watchdogTicks, OnWatchdogTick_single, List.mem_append] at hn
      rcases hn with hn | hn
      · exact hid.2 n hn
      · rw [h3 n hn, hid.1]

/-- In a registry shared with other gateways, a run of ticks does to the record
of a gateway, and emits about it, exactly what it does and emits on a registry
holding that record alone. -/
theorem watchdogTicks_among_others (threshold : Int) (maxMissed : Nat) :
    ∀ (nows : List Time) (pre post : List GatewayRecord) (record : GatewayRecord),
      (∀ r ∈ pre, r.gatewayID ≠ record.gatewayID) →
      (∀ r ∈ post, r.gatewayID ≠ record.gatewayID) →
      lookupGateway record.gatewayID
          (watchdogTicks threshold maxMissed nows (pre ++ record :: post)).1
        = (watchdogTicks threshold maxMissed nows [record]).1.head?
      ∧ emittedFor record.gatewayID
          (watchdogTicks threshold maxMissed nows (pre ++ record :: post)).2
        = (watchdogTicks threshold maxMissed nows [record]).2 := by
  intro nows
  induction nows with
  | nil =>
    intro pre post record hpre _
    exact ⟨by simpa [watchdogTicks] using lookupGateway_middle pre post record hpre,
      by simp [watchdogTicks, emittedFor]⟩
  | cons now later ih =>
    intro pre post record hpre hpost
    have hid := tickRecord_gatewayID now threshold maxMissed record
    obtain ⟨hpre1, hpre2⟩ := OnWatchdogTick_others now threshold maxMissed record.gatewayID
      pre hpre
    obtain ⟨hpost1, hpost2⟩ := OnWatchdogTick_others now threshold maxMissed record.gatewayID
      post hpost
    have hsplit : OnWatchdogTick now threshold maxMissed (pre ++ record :: post)
        = ((OnWatchdogTick now threshold maxMissed pre).1
              ++ (tickRecord now threshold maxMissed record).1
                :: (OnWatchdogTick now threshold maxMissed post).1,
            (OnWatchdogTick now threshold maxMissed pre).2
              ++ ((tickRecord now threshold maxMissed record).2
                ++ (OnWatchdogTick now threshold maxMissed post).2)) := by
      rw [OnWatchdogTick_append]
      simp [OnWatchdogTick]
    have hih := ih (OnWatchdogTick now threshold maxMissed pre).1
      (OnWatchdogTick now threshold maxMissed post).1
      (tickRecord now threshold maxMissed record).1
      (by rw [hid.1]; exact hpre1) (by rw [hid.1]; exact hpost1)
    rw [hid.1] at hih
    have hown : emittedFor record.gatewayID (tickRecord now threshold maxMissed record).2
        = (tickRecord now threshold maxMissed record).2 := by
      simp only [emittedFor, List.filter_eq_self]
      intro n hn
      simp [hid.2 n hn]
    have hleft : watchdogTicks threshold maxMissed (now :: later) (pre ++ record :: post)
        = ((watchdogTicks threshold maxMissed later
              (OnWatchdogTick now threshold maxMissed (pre ++ record :: post)).1).1,
            (OnWatchdogTick now threshold maxMissed (pre ++ record :: post)).2
              ++ (watchdogTicks threshold maxMissed later
                  (OnWatchdogTick now threshold maxMissed (pre ++ record :: post)).1).2) := rfl
    have hright : watchdogTicks threshold maxMissed (now :: later) [record]
        = ((watchdogTicks threshold maxMissed later
              [(tickRecord now threshold maxMissed record).1]).1,
            (tickRecord now threshold maxMissed record).2
              ++ (watchdogTicks threshold maxMissed later
                  [(tickRecord now threshold maxMissed record).1]).2) := by
      show ((watchdogTicks threshold maxMissed later
              (OnWatchdogTick now threshold maxMissed [record]).1).1, _) = _
      rw [OnWatchdogTick_single]
    rw [hleft, hright, hsplit]
    refine ⟨hih.1, ?_⟩
    have hemit : ∀ a b c d : List GatewayNotification,
        emittedFor record.gatewayID (a ++ (b ++ c) ++ d)
          = emittedFor record.gatewayID a ++ (emittedFor record.gatewayID b
              ++ emittedFor record.gatewayID c) ++ emittedFor record.gatewayID d := by
      intro a b c d
      simp [emittedFor, List.filter_append]
    show emittedFor record.gatewayID
        ((OnWatchdogTick now threshold maxMissed pre).2
            ++ ((tickRecord now threshold maxMissed record).2
              ++ (OnWatchdogTick now threshold maxMissed post).2)
          ++ (watchdogTicks threshold maxMissed later
              ((OnWatchdogTick now threshold maxMissed pre).1
                ++ (tickRecord now threshold maxMissed record).1
                  :: (OnWatchdogTick now threshold maxMissed post).1)).2) = _
    rw [hemit, hpre2, hpost2, hown, hih.2]
    simp

/-- A run of ticks can be cut in two. -/
theorem watchdogTicks_append (threshold : Int) (maxMissed : Nat) :
    ∀ (first second : List Time) (registry : List GatewayRecord),
      watchdogTicks threshold maxMissed (first ++ second) registry
        = ((watchdogTicks threshold maxMissed second
              (watchdogTicks threshold maxMissed first registry).1).1,
            (watchdogTicks threshold maxMissed first registry).2
              ++ (watchdogTicks threshold maxMissed second
                  (watchdogTicks threshold maxMissed first registry).1).2) := by
  intro first
  induction first with
  | nil => intro second registry; simp [watchdogTicks]
  | cons now later ih =>
    intro second registry
    have hcut := ih second (OnWatchdogTick now threshold maxMissed registry).1
    simp only [List.cons_append, watchdogTicks, List.append_assoc]
    show ((watchdogTicks threshold maxMissed (later ++ second)
              (OnWatchdogTick now threshold maxMissed registry).1).1,
            (OnWatchdogTick now threshold maxMissed registry).2
              ++ (watchdogTicks threshold maxMissed (later ++ second)
                  (OnWatchdogTick now threshold maxMissed registry).1).2) = _
    rw [hcut]

/-- C14: take a registry in which the record of a gateway stands among the
records of any number of other gateways, the gateway registered with no
heartbeat missed, a positive `maxMissed`, and `maxMissed` consecutive watchdog
ticks that all find the last heartbeat of the gateway older than the threshold.
After fewer than `maxMissed` of these ticks the gateway is still registered,
its count is the number of ticks and no notification about it was emitted;
after all of them its count is `maxMissed`, it is deregistered and exactly one
notification about it was emitted, the `Gateway Deregistered` one; after any
further ticks the record is the same, the count has not grown, and the whole
run still emitted exactly that one notification about the gateway, whatever
the ticks did to the other gateways. -/
theorem watchdog_deregisters_once (pre post : List GatewayRecord) (record : GatewayRecord)
    (threshold : Int) (maxMissed : Nat) (nows later : List Time)
    (hpre : ∀ r ∈ pre, r.gatewayID ≠ record.gatewayID)
    (hpost : ∀ r ∈ post, r.gatewayID ≠ record.gatewayID)
    (hreg : record.registrationStatus = .Registered)
    (hzero : record.missedHeartbeatCount = 0)
    (hpos : 0 < maxMissed)
    (hlen : nows.length = maxMissed)
    (hexceed : ∀ now ∈ nows, now - record.lastHeartbeatAt > threshold) :
    (∀ k, k < maxMissed →
        lookupGateway record.gatewayID
            (watchdogTicks threshold maxMissed (nows.take k) (pre ++ record :: post)).1
          = some { record with missedHeartbeatCount := k }
        ∧ emittedFor record.gatewayID
            (watchdogTicks threshold maxMissed (nows.take k) (pre ++ record :: post)).2 = [])
    ∧ (lookupGateway record.gatewayID
            (watchdogTicks threshold maxMissed nows (pre ++ record :: post)).1
          = some { record with registrationStatus := .Deregistered,
                               missedHeartbeatCount := maxMissed }
        ∧ emittedFor record.gatewayID
            (watchdogTicks threshold maxMissed nows (pre ++ record :: post)).2
          = [⟨"Gateway Deregistered", record.gatewayID, record.facilities⟩])
    ∧ (lookupGateway record.gatewayID
            (watchdogTicks threshold maxMissed (nows ++ later) (pre ++ record :: post)).1
          = some { record with registrationStatus := .Deregistered,
                               missedHeartbeatCount := maxMissed }
        ∧ emittedFor record.gatewayID
            (watchdogTicks threshold maxMissed (nows ++ later) (pre ++ record :: post)).2
          = [⟨"Gateway Deregistered", record.gatewayID, record.facilities⟩]) := by
  have hne : nows ≠ [] := by
    intro h
    rw [h] at hlen
    simp at hlen
    omega
  have hall := watchdogTicks_reaching threshold maxMissed nows record hreg hexceed hne
    (by omega)
  have hlater := watchdogTicks_deregistered threshold maxMissed
    { record with registrationStatus := .Deregistered, missedHeartbeatCount := maxMissed }
    rfl later
  have hwhole : watchdogTicks threshold maxMissed (nows ++ later) [record]
      = ([{ record with registrationStatus := .Deregistered,
                        missedHeartbeatCount := maxMissed }],
          [deregisteredNotification record]) := by
    rw [watchdogTicks_append, hall]
    simp only []
    rw [hlater]
    simp
  refine ⟨?_, ?_, ?_⟩
  · intro k hk
    have hcount := watchdogTicks_counting threshold maxMissed (nows.take k) record hreg
      (fun t ht => hexceed t (List.mem_of_mem_take ht))
      (by rw [List.length_take]; omega)
    rw [List.length_take, hzero] at hcount
    have hmin : min k nows.length = k := by omega
    rw [hmin, Nat.zero_add] at hcount
    obtain ⟨h1, h2⟩ := watchdogTicks_among_others threshold maxMissed (nows.take k) pre post
      record hpre hpost
    rw [h1, h2, hcount]
    exact ⟨rfl, rfl⟩
  · obtain ⟨h1, h2⟩ := watchdogTicks_among_others threshold maxMissed nows pre post
      record hpre hpost
    rw [h1, h2, hall]
    exact ⟨rfl, rfl⟩
  · obtain ⟨h1, h2⟩ := watchdogTicks_among_others threshold maxMissed (nows ++ later) pre post
      record hpre hpost
    rw [h1, h2, hwhole]
    exact ⟨rfl, rfl⟩

/-- C14, at a concrete input: gateways `rrpgw2` and `rrpgw` share the registry,
both with their last heartbeat at time 0; threshold 10, `maxMissed` 3, ticks at
11, 21 and 31, later ticks at 41 and 51.  The run emits two notifications, one
about each gateway, and exactly one is about `rrpgw`. -/
theorem watchdog_deregisters_once_witness :
    (lookupGateway "rrpgw" (watchdogTicks 10 3 [11, 21] [otherRecord, freshRecord]).1
        = some ⟨"rrpgw", ["facility1", "facility2"], .Registered, 2, 0⟩
      ∧ emittedFor "rrpgw" (watchdogTicks 10 3 [11, 21] [otherRecord, freshRecord]).2 = [])
    ∧ (lookupGateway "rrpgw" (watchdogTicks 10 3 [11, 21, 31] [otherRecord, freshRecord]).1
        = some ⟨"rrpgw", ["facility1", "facility2"], .Deregistered, 3, 0⟩
      ∧ emittedFor "rrpgw" (watchdogTicks 10 3 [11, 21, 31] [otherRecord, freshRecord]).2
        = [⟨"Gateway Deregistered", "rrpgw", ["facility1", "facility2"]⟩])
    ∧ (lookupGateway "rrpgw"
          (watchdogTicks 10 3 [11, 21, 31, 41, 51] [otherRecord, freshRecord]).1
        = some ⟨"rrpgw", ["facility1", "facility2"], .Deregistered, 3, 0⟩
      ∧ emittedFor "rrpgw"
          (watchdogTicks 10 3 [11, 21, 31, 41, 51] [otherRecord, freshRecord]).2
        = [⟨"Gateway Deregistered", "rrpgw", ["facility1", "facility2"]⟩])
    ∧ (watchdogTicks 10 3 [11, 21, 31, 41, 51] [otherRecord, freshRecord]).2
        = [⟨"Gateway Deregistered", "rrpgw2", ["facility3"]⟩,
            ⟨"Gateway Deregistered", "rrpgw", ["facility1", "facility2"]⟩] :=
  ⟨(watchdog_deregisters_once [otherRecord] [] freshRecord 10 3 [11, 21, 31] [41, 51]
      (by decide) (by decide) rfl rfl (by decide) rfl (by decide)).1 2 (by decide),
   (watchdog_deregisters_once [otherRecord] [] freshRecord 10 3 [11, 21, 31] [41, 51]
      (by decide) (by decide) rfl rfl (by decide) rfl (by decide)).2.1,
   (watchdog_deregisters_once [otherRecord] [] freshRecord 10 3 [11, 21, 31] [41, 51]
      (by decide) (by decide) rfl rfl (by decide) rfl (by decide)).2.2,
   by decide⟩

/-! ### The body of a relayed payload -/

/-- C17 (evaluation at the failing input): relaying the serialized payload
`{"value":{}}`, each of `processHeartbeat`, `processEvent` and `processAlert`
POSTs the JSON string literal that holds that text, quotes escaped.  Decoding
the body yields a JSON string whose content is the text, whereas the
payload's own JSON value is the object with the member `value`. -/
theorem relayed_body_is_string_literal :
    ((processHeartbeat envQuoting sampleConfig docNoGateway World.empty).2.posts.map
          (fun r => (r.url, r.body)) = [("http://destination/heartbeat", quotedNoGateway)]
      ∧ (processEvent envQuoting sampleConfig docNoGateway World.empty).2.posts.map
          (fun r => (r.url, r.body)) = [("http://destination/event", quotedNoGateway)]
      ∧ (processAlert envQuoting sampleConfig docNoGateway World.empty).2.posts.map
          (fun r => (r.url, r.body)) = [("http://destination/alert", quotedNoGateway)])
    ∧ envQuoting.unmarshal docNoGateway = .ok (.obj [("value", .obj [])])
    ∧ envQuoting.unmarshal quotedNoGateway
        = .ok (.str (String.mk (docNoGateway.map Char.ofNat)))
    ∧ String.mk (docNoGateway.map Char.ofNat) = "\x7b\"value\":\x7b\x7d\x7d"
    ∧ envQuoting.unmarshal quotedNoGateway ≠ envQuoting.unmarshal docNoGateway := by
  have hbody : envQuoting.unmarshal quotedNoGateway
      = .ok (.str (String.mk (docNoGateway.map Char.ofNat))) := rfl
  have hdoc : envQuoting.unmarshal docNoGateway = .ok (.obj [("value", .obj [])]) := rfl
  refine ⟨⟨rfl, rfl, rfl⟩, hdoc, hbody, by decide, ?_⟩
  rw [hbody, hdoc]
  intro h
  cases h

end AlertService
